import Mathlib

/-!
Shallow embedding of the payment settlement and reconciliation engine of the
`birthsalescore` repository (Django project `bscore`).

The embedding covers:
* the constant enumerations of `bscore/utils/const.py`;
* the `Wallet` model with `credit_wallet` / `debit_wallet`
  (`accounts/models.py`);
* the `Order` / `OrderItem` / `Payment` / `Payout` / `PayoutItem` /
  `PaystackWebhookEvent` models (`apis/models.py`);
* `create_payouts_for_order_payment`, `_apply_payment_success_effects_locked`,
  `apply_payment_success_effects` and `finalize_paystack_payment`
  (`bscore/utils/services.py`);
* `PaystackWebhookAPI.post` and `PaymentStatusCheckAPI.get`
  (`apis/views/payments.py`);
* the replay command `replay_paystack_webhooks` (`apis/management/commands`).

Database tables are embedded as Lean lists inside a `DB` record; saving a row
replaces the entries carrying the row's primary key.  External collaborators
(the Paystack / PayHub gateways, JSON parsing, HMAC) enter as explicit
function parameters, so that every code path of the embedded functions is the
code path of the source.  Monetary `Decimal` values are embedded as `Int`
(the source only adds, subtracts and compares them); calendar dates as `Nat`
day numbers.
-/

set_option linter.unusedVariables false

namespace BSCore

/-- `PaymentStatus` from `bscore/utils/const.py`: PENDING / SUCCESS / FAILED. -/
inductive PaymentStatus
  | PENDING
  | SUCCESS
  | FAILED
  deriving DecidableEq, Repr

/-- Modelled from the spec: `PaymentStatusCode` is imported from
`bscore.utils.const` by the services, views and the replay command but is
absent from the provided sources of `const.py`.  The spec describes
`status_code` as the gateway-native code, advisory only; the importing code
uses exactly the three distinct member values SUCCESS / FAILED / PENDING. -/
inductive PaymentStatusCode
  | PENDING
  | SUCCESS
  | FAILED
  deriving DecidableEq, Repr

/-- `PaymentType` from `bscore/utils/const.py`: DEBIT / CREDIT. -/
inductive PaymentType
  | DEBIT
  | CREDIT
  deriving DecidableEq, Repr

/-- `Wallet` model (`accounts/models.py`): one balance per vendor. -/
structure Wallet where
  id : Nat
  vendor_id : Nat
  balance : Int
  deriving DecidableEq, Repr

/-- `Wallet.credit_wallet`: unconditionally add `amount` to the balance. -/
def Wallet.credit_wallet (w : Wallet) (amount : Int) : Wallet :=
  { w with balance := w.balance + amount }

/-- `Wallet.debit_wallet`: subtract `amount` when the balance covers it and
report `true`; otherwise leave the wallet untouched and report `false`. -/
def Wallet.debit_wallet (w : Wallet) (amount : Int) : Wallet × Bool :=
  if w.balance ≥ amount then
    ({ w with balance := w.balance - amount }, true)
  else
    (w, false)

/-- `OrderItem` model (`apis/models.py`).  `price` is the line total
(`product.price * quantity`, maintained by `OrderItem.save`);
`product_vendor` is `item.product.vendor` (absent when the product has no
vendor); `product_price` is the current `product.price`. -/
structure OrderItem where
  id : Nat
  product_id : Nat
  product_vendor : Option Nat
  product_price : Int
  quantity : Nat
  price : Int
  deriving DecidableEq, Repr

/-- `Order` model (`apis/models.py`): line items plus a delivery fee. -/
structure Order where
  id : Nat
  items : List OrderItem
  delivery_fee_amount : Int
  deriving DecidableEq, Repr

/-- `Order.total_amount` property: items total plus delivery fee. -/
def Order.total_amount (o : Order) : Int :=
  (o.items.map (·.price)).sum + o.delivery_fee_amount

/-- `Subscription` model (`accounts/models.py`), restricted to the fields the
effect applier touches (`start_date` / `end_date`, as day numbers). -/
structure Subscription where
  id : Nat
  start_date : Nat
  end_date : Nat
  deriving DecidableEq, Repr

/-- `Payment` model (`apis/models.py`), restricted to the fields read or
written by the settlement engine. -/
structure Payment where
  id : Nat
  payment_id : String
  order_id : Option Nat
  booking_id : Option Nat
  subscription_id : Option Nat
  vendor_id : Option Nat
  amount : Int
  payment_type : PaymentType
  status : PaymentStatus
  status_code : Option PaymentStatusCode
  vendor_credited_debited : Bool
  subscription_effects_applied : Bool
  deriving DecidableEq, Repr

/-- `Payout` model (`apis/models.py`): settlement obligation for one
(order, vendor) pair; `(order_id, vendor_id)` is a unique key. -/
structure Payout where
  order_id : Nat
  vendor_id : Nat
  payment_pk : Option Nat
  amount : Int
  payment_status : PaymentStatus
  payout_status : String
  is_settled : Bool
  deriving DecidableEq, Repr

/-- `PayoutItem` model (`apis/models.py`): line-item snapshot; the pair of the
payout key `(order_id, vendor_id)` and `order_item_id` is a unique key. -/
structure PayoutItem where
  payout_order_id : Nat
  payout_vendor_id : Nat
  order_item_id : Nat
  product_id : Nat
  quantity : Nat
  unit_price : Int
  line_total : Int
  deriving DecidableEq, Repr

/-- `PaystackWebhookEvent` model (`apis/models.py`). -/
structure WebhookEvent where
  id : Nat
  event : Option String
  reference : String
  signature : String
  processed : Bool
  attempts : Nat
  last_error : Option String
  processed_at : Option Nat
  created_at : Nat
  deriving DecidableEq, Repr

/-- The database: one list per table, vendors by id, plus a clock used for
`auto_now_add` timestamps and fresh primary keys of webhook events. -/
structure DB where
  vendors : List Nat
  wallets : List Wallet
  orders : List Order
  subscriptions : List Subscription
  payments : List Payment
  payouts : List Payout
  payoutItems : List PayoutItem
  webhookEvents : List WebhookEvent
  clock : Nat
  deriving DecidableEq, Repr

/-- `Vendor.get_wallet`: `Wallet.objects.filter(vendor=self).first()`. -/
def get_wallet (db : DB) (vendor : Nat) : Option Wallet :=
  db.wallets.find? (fun w => w.vendor_id = vendor)

/-- Saving a wallet row: replace the entries with the same primary key. -/
def saveWallet (db : DB) (w : Wallet) : DB :=
  { db with wallets := db.wallets.map (fun x => if x.id = w.id then w else x) }

/-- `Payment.objects.filter(id=i).first()` (the `select_for_update` re-read). -/
def getPaymentByPk (db : DB) (i : Nat) : Option Payment :=
  db.payments.find? (fun p => p.id = i)

/-- `Payment.objects.filter(payment_id=reference).first()`. -/
def findPayment (db : DB) (reference : String) : Option Payment :=
  db.payments.find? (fun p => p.payment_id = reference)

/-- `payment.save()`: replace the entries with the same primary key. -/
def savePayment (db : DB) (p : Payment) : DB :=
  { db with payments := db.payments.map (fun x => if x.id = p.id then p else x) }

/-- `payment.order` dereference (`Order.objects` row behind `order_id`). -/
def findOrder (db : DB) (i : Nat) : Option Order :=
  db.orders.find? (fun o => o.id = i)

/-- `payment.subscription` dereference. -/
def findSubscription (db : DB) (i : Nat) : Option Subscription :=
  db.subscriptions.find? (fun s => s.id = i)

/-- `subscription.save()`: replace the entries with the same primary key. -/
def saveSubscription (db : DB) (s : Subscription) : DB :=
  { db with subscriptions :=
      db.subscriptions.map (fun x => if x.id = s.id then s else x) }

end BSCore

namespace BSCore

/-! ### Payout fan-out (`create_payouts_for_order_payment`) -/

/-- One entry of the `vendor_totals` / `vendor_items` accumulation of
`create_payouts_for_order_payment`: a vendor id with the running total of its
line prices and its order items, in insertion order. -/
structure VendorGroup where
  vendor_id : Nat
  total : Int
  items : List OrderItem
  deriving DecidableEq, Repr

/-- `vendor_totals.setdefault` + `+=` and `vendor_items.setdefault` +
`append` for one item whose product's vendor is `v`. -/
def addItemToGroups (v : Nat) (it : OrderItem) : List VendorGroup → List VendorGroup
  | [] => [⟨v, it.price, [it]⟩]
  | g :: gs =>
    if g.vendor_id = v then
      { g with total := g.total + it.price, items := g.items ++ [it] } :: gs
    else
      g :: addItemToGroups v it gs

/-- One iteration of the `for item in order.items...` loop: items whose
product has no vendor are skipped (`if not vendor: continue`). -/
def groupStep (acc : List VendorGroup) (it : OrderItem) : List VendorGroup :=
  match it.product_vendor with
  | none => acc
  | some v => addItemToGroups v it acc

/-- The insertion-ordered grouping of order items by product vendor built by
the first loop of `create_payouts_for_order_payment` (a Python dict keyed by
`vendor.id` preserves insertion order). -/
def vendorGroups (items : List OrderItem) : List VendorGroup :=
  items.foldl groupStep []

/-- Setting `payout.payment / payment_status / amount` on the first payout
row keyed `(order, vendor)` and saving it; `none` when no such row exists. -/
def setPayoutFields (oid v : Nat) (pk : Option Nat) (pst : PaymentStatus) (amt : Int) :
    List Payout → Option (List Payout)
  | [] => none
  | p :: ps =>
    if p.order_id = oid ∧ p.vendor_id = v then
      some ({ p with payment_pk := pk, payment_status := pst, amount := amt } :: ps)
    else
      (setPayoutFields oid v pk pst amt ps).map (p :: ·)

/-- The row `Payout.objects.get_or_create` builds from its `defaults` when no
`(order, vendor)` row exists (`payout_status` and `is_settled` take the model
defaults). -/
def newPayout (oid v : Nat) (pk : Option Nat) (pst : PaymentStatus) (amt : Int) : Payout :=
  { order_id := oid, vendor_id := v, payment_pk := pk, amount := amt,
    payment_status := pst, payout_status := "PENDING", is_settled := false }

/-- `Payout.objects.get_or_create` followed by the unconditional field update
and `payout.save()`. -/
def upsertPayout (oid v : Nat) (pk : Option Nat) (pst : PaymentStatus) (amt : Int)
    (ps : List Payout) : List Payout :=
  match setPayoutFields oid v pk pst amt ps with
  | some ps' => ps'
  | none => ps ++ [newPayout oid v pk pst amt]

/-- Whether a `PayoutItem` row with unique key (payout `(oid, v)`, order item
`oiid`) already exists. -/
def hasPayoutItem (its : List PayoutItem) (oid v oiid : Nat) : Bool :=
  its.any (fun q => q.payout_order_id = oid ∧ q.payout_vendor_id = v ∧ q.order_item_id = oiid)

/-- `PayoutItem.objects.get_or_create`: existing rows are left untouched, a
missing row is created from the `defaults` (snapshot of the order item). -/
def upsertPayoutItem (oid v : Nat) (oi : OrderItem) (its : List PayoutItem) : List PayoutItem :=
  if hasPayoutItem its oid v oi.id then its
  else its ++ [{ payout_order_id := oid, payout_vendor_id := v, order_item_id := oi.id,
                 product_id := oi.product_id, quantity := oi.quantity,
                 unit_price := oi.product_price, line_total := oi.price }]

/-- The payout and payout-item tables while fan-out runs. -/
structure FanoutState where
  payouts : List Payout
  payoutItems : List PayoutItem
  deriving DecidableEq, Repr

/-- One iteration of the `for vendor_id, total in vendor_totals.items()` loop:
skip vendors that no longer exist (`if not vendor: continue`), otherwise
upsert the payout and its payout items. -/
def processVendorGroup (vendors : List Nat) (oid : Nat) (pk : Nat) (pst : PaymentStatus)
    (st : FanoutState) (g : VendorGroup) : FanoutState :=
  if vendors.contains g.vendor_id then
    { payouts := upsertPayout oid g.vendor_id (some pk) pst g.total st.payouts,
      payoutItems :=
        g.items.foldl (fun acc oi => upsertPayoutItem oid g.vendor_id oi acc) st.payoutItems }
  else st

/-- `create_payouts_for_order_payment` (`bscore/utils/services.py`): group
order lines by vendor, then upsert one Payout per vendor and one PayoutItem
per line.  Returns for a missing order target or when neither `status_code`
nor `status` is SUCCESS. -/
def create_payouts_for_order_payment (db : DB) (payment : Payment) : DB :=
  match payment.order_id with
  | none => db
  | some oid =>
    if payment.status_code ≠ some PaymentStatusCode.SUCCESS ∧
        payment.status ≠ PaymentStatus.SUCCESS then db
    else
      match findOrder db oid with
      | none => db
      | some order =>
        let st := (vendorGroups order.items).foldl
          (processVendorGroup db.vendors oid payment.id payment.status)
          ⟨db.payouts, db.payoutItems⟩
        { db with payouts := st.payouts, payoutItems := st.payoutItems }

/-! ### The idempotent effect applier -/

/-- The second block of `_apply_payment_success_effects_locked`: non-order
wallet movements — credit the vendor for DEBIT, debit the vendor for CREDIT
(cashout), each at most once per payment via `vendor_credited_debited`. -/
def walletEffectStep (db : DB) (payment : Payment) : DB × Payment :=
  if payment.order_id = none ∧ payment.vendor_id.isSome ∧
      payment.vendor_credited_debited = false then
    match payment.vendor_id with
    | some v =>
      match (if db.vendors.contains v then get_wallet db v else none) with
      | some w =>
        if payment.payment_type = PaymentType.DEBIT then
          (saveWallet db (w.credit_wallet payment.amount),
           { payment with vendor_credited_debited := true })
        else if payment.payment_type = PaymentType.CREDIT then
          if (w.debit_wallet payment.amount).2 then
            (saveWallet db (w.debit_wallet payment.amount).1,
             { payment with vendor_credited_debited := true })
          else (db, payment)
        else (db, payment)
      | none => (db, payment)
    | none => (db, payment)
  else (db, payment)

/-- The third block of `_apply_payment_success_effects_locked`: subscription
payments — set the subscription dates once per payment via
`subscription_effects_applied`. -/
def subscriptionEffectStep (db : DB) (payment : Payment) (today : Nat) : DB × Payment :=
  match payment.subscription_id with
  | some sid =>
    if payment.subscription_effects_applied = false then
      match findSubscription db sid with
      | some s =>
        (saveSubscription db { s with start_date := today, end_date := today + 30 },
         { payment with subscription_effects_applied := true })
      | none => (db, payment)
    else (db, payment)
  | none => (db, payment)

/-- `_apply_payment_success_effects_locked` (`bscore/utils/services.py`):
assumes the payment row is locked; runs the three guarded effect blocks in
sequence (payout fan-out for orders, wallet movement, subscription dates) and
saves the payment.  `today` stands for `timezone.localdate()`. -/
def _apply_payment_success_effects_locked (db : DB) (payment : Payment) (today : Nat) :
    DB × Payment :=
  let db1 := if payment.order_id.isSome then create_payouts_for_order_payment db payment
             else db
  let r1 := walletEffectStep db1 payment
  let r2 := subscriptionEffectStep r1.1 r1.2 today
  (savePayment r2.1 r2.2, r2.2)

/-- `apply_payment_success_effects` (`bscore/utils/services.py`): guard on
SUCCESS status and status code, re-read the row under lock, re-check the
guard, then run the locked effect applier. -/
def apply_payment_success_effects (db : DB) (payment : Payment) (today : Nat) :
    DB × Payment :=
  if payment.status ≠ PaymentStatus.SUCCESS ∨
      payment.status_code ≠ some PaymentStatusCode.SUCCESS then
    (db, payment)
  else
    match getPaymentByPk db payment.id with
    | none => (db, payment)
    | some locked =>
      if locked.status ≠ PaymentStatus.SUCCESS ∨
          locked.status_code ≠ some PaymentStatusCode.SUCCESS then
        (db, locked)
      else
        _apply_payment_success_effects_locked db locked today

end BSCore

namespace BSCore

/-! ### `finalize_paystack_payment` (verify-and-apply) -/

/-- The `data` object of a Paystack verification response; `status_text` is
`data.get("status")` (for example "success", "failed", "abandoned"). -/
structure VerifyData where
  status_text : String
  deriving DecidableEq, Repr

/-- A Paystack verification response: `ok` is the truthiness of
`verify.get("status")`, `data` the (possibly missing) `data` object. -/
structure VerifyResult where
  ok : Bool
  data : Option VerifyData
  deriving DecidableEq, Repr

/-- The `status` entry of the dict `finalize_paystack_payment` returns:
either the literal string "failed" or the value of `payment.status` (the
upper-case member strings of `PaymentStatus`, so `failedLiteral` is distinct
from `ofPayment FAILED`). -/
inductive FinStatus
  | failedLiteral
  | ofPayment (s : PaymentStatus)
  deriving DecidableEq, Repr

/-- The dict `finalize_paystack_payment` returns, restricted to the entries
its callers read. -/
structure FinalizeResult where
  fin_status : FinStatus
  api_status : Nat
  transaction : Option Payment
  deriving DecidableEq, Repr

/-- `finalize_paystack_payment` (`bscore/utils/services.py`).  The gateway
response of `paystack_verify(reference)` is passed in as `verify`. -/
def finalize_paystack_payment (db : DB) (reference : String) (verify : VerifyResult)
    (today : Nat) : DB × FinalizeResult :=
  -- Quick check: ensure we have a local payment record.
  match findPayment db reference with
  | none => (db, ⟨.failedLiteral, 404, none⟩)
  | some payment0 =>
    -- If Paystack verification failed, don't mutate local state.
    if verify.ok = false ∨ verify.data = none then
      (db, ⟨.failedLiteral, 400, some payment0⟩)
    else
      let status_text := ((verify.data).getD ⟨""⟩).status_text
      -- Re-read the row under `select_for_update`.
      match findPayment db reference with
      | none => (db, ⟨.failedLiteral, 404, none⟩)
      | some payment =>
        let already_success := payment.status = PaymentStatus.SUCCESS ∧
          payment.status_code = some PaymentStatusCode.SUCCESS
        -- Never downgrade a successful payment.
        if already_success ∧ status_text ≠ "success" then
          (db, ⟨.ofPayment payment.status, 200, some payment⟩)
        else if status_text = "success" then
          let payment := { payment with status := PaymentStatus.SUCCESS,
                                        status_code := some PaymentStatusCode.SUCCESS }
          let db := savePayment db payment
          let r := _apply_payment_success_effects_locked db payment today
          (r.1, ⟨.ofPayment r.2.status, 200, some r.2⟩)
        else
          let payment :=
            if status_text = "failed" then
              { payment with status := PaymentStatus.FAILED,
                             status_code := some PaymentStatusCode.FAILED }
            else
              { payment with status := PaymentStatus.PENDING,
                             status_code := some PaymentStatusCode.PENDING }
          (savePayment db payment, ⟨.ofPayment payment.status, 200, some payment⟩)

/-! ### `PaymentStatusCheckAPI.get` (status poll) -/

/-- Response of the status-poll endpoint. -/
inductive PollOutcome
  | missingId
  | notFound
  | ok (p : Payment)
  deriving DecidableEq, Repr

/-- `PaymentStatusCheckAPI.get` (`apis/views/payments.py`).  `provider_code`
is the `status_code` entry of the `get_transaction_status` gateway response,
already matched against the `PaymentStatusCode` member values (`none` for any
unknown code). -/
def PaymentStatusCheckAPI_get (db : DB) (payment_id : Option String)
    (provider_code : Option PaymentStatusCode) (today : Nat) : DB × PollOutcome :=
  match payment_id with
  | none => (db, .missingId)
  | some pid =>
    match findPayment db pid with
    | none => (db, .notFound)
    | some payment =>
      let already_success := payment.status = PaymentStatus.SUCCESS ∧
        payment.status_code = some PaymentStatusCode.SUCCESS
      -- Normalize provider codes into PaymentStatus / PaymentStatusCode.
      let payment :=
        if provider_code = some PaymentStatusCode.SUCCESS then
          { payment with status := PaymentStatus.SUCCESS,
                         status_code := some PaymentStatusCode.SUCCESS }
        else if provider_code = some PaymentStatusCode.FAILED then
          -- Never downgrade a successful payment.
          if ¬already_success then
            { payment with status := PaymentStatus.FAILED,
                           status_code := some PaymentStatusCode.FAILED }
          else payment
        else
          -- Treat unknown codes as pending.
          if ¬already_success then
            { payment with status := PaymentStatus.PENDING,
                           status_code := some PaymentStatusCode.PENDING }
          else payment
      let db := savePayment db payment
      -- If the payment is now successful, apply post-success effects.
      if payment.status = PaymentStatus.SUCCESS ∧
          payment.status_code = some PaymentStatusCode.SUCCESS then
        let r := apply_payment_success_effects db payment today
        (r.1, .ok r.2)
      else (db, .ok payment)

/-! ### `PaystackWebhookAPI.post` (webhook receiver) -/

/-- The parsed webhook body: `event` and `data.reference`
(`data = payload.get("data") or {}`). -/
structure WebhookPayload where
  event : Option String
  reference : Option String
  deriving DecidableEq, Repr

/-- Response classification of the webhook receiver, paired below with the
HTTP status the view returns. -/
inductive WebhookOutcome
  | missingSignature
  | secretNotConfigured
  | invalidSignature
  | invalidJson
  | ignoredMissingReference
  | ignoredEvent
  | queued
  | reconciled (r : FinalizeResult)
  deriving DecidableEq, Repr

/-- The `allowed_events` set of `PaystackWebhookAPI.post`. -/
def paystack_allowed_events : List String :=
  ["charge.success", "charge.failed", "transaction.success", "transaction.failed"]

/-- `PaystackWebhookAPI.post` (`apis/views/payments.py`).  `hmacHex` stands
for hex HMAC-SHA512, `jsonParse` for `json.loads` (`none` = parse error),
`verifyFn` for `paystack_verify`; each is an opaque collaborator passed in
as a function so the view's control flow is the source's. -/
def PaystackWebhookAPI_post (hmacHex : String → String → String)
    (jsonParse : String → Option WebhookPayload) (verifyFn : String → VerifyResult)
    (secret : Option String) (db : DB) (signature : Option String) (raw_body : String)
    (today : Nat) : DB × WebhookOutcome × Nat :=
  match signature with
  | none => (db, .missingSignature, 400)
  | some sig =>
    match secret with
    | none => (db, .secretNotConfigured, 500)
    | some sec =>
      let computed := hmacHex sec raw_body
      if computed ≠ sig then (db, .invalidSignature, 401)
      else
        match jsonParse raw_body with
        | none => (db, .invalidJson, 400)
        | some payload =>
          match payload.reference with
          | none => (db, .ignoredMissingReference, 200)
          | some reference =>
            -- `if event and event not in allowed_events` (a None event passes).
            if (match payload.event with
                | some e => !paystack_allowed_events.contains e
                | none => false) then
              (db, .ignoredEvent, 200)
            else if (findPayment db reference).isNone then
              -- No local Payment yet: record the webhook and ACK.
              let ev : WebhookEvent :=
                { id := db.clock, event := payload.event, reference := reference,
                  signature := sig, processed := false, attempts := 0,
                  last_error := none, processed_at := none, created_at := db.clock }
              ({ db with webhookEvents := db.webhookEvents ++ [ev],
                         clock := db.clock + 1 }, .queued, 200)
            else
              let r := finalize_paystack_payment db reference (verifyFn reference) today
              let db := r.1
              let result := r.2
              if result.api_status ≥ 500 then (db, .reconciled result, 500)
              else
                -- Mark queued events for this reference processed on terminal states.
                let db :=
                  if result.fin_status = .ofPayment PaymentStatus.SUCCESS ∨
                      result.fin_status = .ofPayment PaymentStatus.FAILED then
                    let le : Option String :=
                      if result.fin_status = .ofPayment PaymentStatus.FAILED then
                        some "Terminal FAILED reconciliation"
                      else none
                    { db with webhookEvents := db.webhookEvents.map (fun e =>
                        if e.reference = reference ∧ e.processed = false then
                          { e with processed := true, processed_at := some db.clock,
                                   attempts := e.attempts + 1, last_error := le }
                        else e) }
                  else db
                (db, .reconciled result, 200)

/-! ### The replay command (`replay_paystack_webhooks`) -/

/-- The `order_by('created_at')` ordering: oldest first. -/
def byCreated (a b : WebhookEvent) : Prop :=
  a.created_at ≤ b.created_at

instance : DecidableRel byCreated := fun a b => Nat.decLe a.created_at b.created_at

instance : IsTotal WebhookEvent byCreated :=
  ⟨fun a b => Nat.le_total a.created_at b.created_at⟩

instance : IsTrans WebhookEvent byCreated :=
  ⟨fun a b c => Nat.le_trans⟩

/-- `order_by('created_at')`: sort ascending (oldest first). -/
def sortByCreated (l : List WebhookEvent) : List WebhookEvent :=
  List.insertionSort byCreated l

/-- The queryset of `Command.handle`: unprocessed events with fewer than
`max_attempts` attempts, oldest first, at most `limit` of them. -/
def replaySelect (events : List WebhookEvent) (limit max_attempts : Nat) :
    List WebhookEvent :=
  (sortByCreated (events.filter
    (fun e => e.processed = false ∧ e.attempts < max_attempts))).take limit

/-- `PaystackWebhookEvent.objects.filter(id=i).update(...)`. -/
def updateEventById (db : DB) (i : Nat) (f : WebhookEvent → WebhookEvent) : DB :=
  { db with webhookEvents := db.webhookEvents.map (fun e => if e.id = i then f e else e) }

/-- The aggregate counters the replay command reports. -/
structure ReplayCounts where
  processed : Nat
  skipped_missing_payment : Nat
  failed : Nat
  deriving DecidableEq, Repr

/-- One iteration of the replay loop over a selected event.  `verifyFn` is
`paystack_verify` as reached through `finalize_paystack_payment`; `none`
models the gateway call raising (the `except` branch). -/
def replayStep (verifyFn : String → Option VerifyResult) (today : Nat)
    (acc : DB × ReplayCounts) (evt : WebhookEvent) : DB × ReplayCounts :=
  let db := acc.1
  let c := acc.2
  let reference := evt.reference
  -- Only replay once a local Payment exists; otherwise keep it queued.
  if (findPayment db reference).isNone then
    (updateEventById db evt.id (fun e =>
      { e with attempts := evt.attempts + 1, last_error := some "Payment still missing" }),
     { c with skipped_missing_payment := c.skipped_missing_payment + 1 })
  else
    match verifyFn reference with
    | none =>
      (updateEventById db evt.id (fun e =>
        { e with attempts := evt.attempts + 1, last_error := some "gateway exception" }),
       { c with failed := c.failed + 1 })
    | some verify =>
      let r := finalize_paystack_payment db reference verify today
      let db := r.1
      let status_text := r.2.fin_status
      let payment := findPayment db reference
      let is_success : Bool :=
        match payment with
        | some p => p.status == PaymentStatus.SUCCESS &&
            p.status_code == some PaymentStatusCode.SUCCESS
        | none => false
      let is_failed : Bool :=
        match payment with
        | some p => p.status == PaymentStatus.FAILED &&
            p.status_code == some PaymentStatusCode.FAILED
        | none => false
      if status_text = .ofPayment PaymentStatus.SUCCESS ∨ is_success then
        (updateEventById db evt.id (fun e =>
          { e with processed := true, processed_at := some db.clock,
                   attempts := evt.attempts + 1, last_error := none }),
         { c with processed := c.processed + 1 })
      else if status_text = .ofPayment PaymentStatus.FAILED ∨ is_failed then
        (updateEventById db evt.id (fun e =>
          { e with processed := true, processed_at := some db.clock,
                   attempts := evt.attempts + 1,
                   last_error := some "Terminal FAILED reconciliation" }),
         { c with processed := c.processed + 1 })
      else
        (updateEventById db evt.id (fun e =>
          { e with attempts := evt.attempts + 1, last_error := some "Not successful yet" }),
         { c with failed := c.failed + 1 })

/-- `Command.handle` of `replay_paystack_webhooks`: select, then reconcile
each selected event independently. -/
def replay_paystack_webhooks (verifyFn : String → Option VerifyResult) (today : Nat)
    (db : DB) (limit max_attempts : Nat) : DB × ReplayCounts :=
  let events := replaySelect db.webhookEvents limit max_attempts
  events.foldl (replayStep verifyFn today) (db, ⟨0, 0, 0⟩)

end BSCore

namespace BSCore

/-! ## Theorems -/

/-- An empty database, used to instantiate universally quantified theorems. -/
def db0 : DB :=
  { vendors := [], wallets := [], orders := [], subscriptions := [], payments := [],
    payouts := [], payoutItems := [], webhookEvents := [], clock := 0 }

/-- **C5**: for every wallet with balance B and every amount a, `credit_wallet a`
always succeeds and leaves balance B + a; `debit_wallet a` with B ≥ a reports
success and leaves balance B − a; `debit_wallet a` with B < a reports failure
and leaves the wallet unchanged. -/
theorem C5_wallet_ledger_ops (w : Wallet) (a : Int) :
    ((w.credit_wallet a).balance = w.balance + a) ∧
    (w.balance ≥ a →
      (w.debit_wallet a).2 = true ∧ (w.debit_wallet a).1.balance = w.balance - a) ∧
    (w.balance < a →
      (w.debit_wallet a).2 = false ∧ (w.debit_wallet a).1 = w) := by
  refine ⟨rfl, fun h => ?_, fun h => ?_⟩
  · simp [Wallet.debit_wallet, h]
  · simp [Wallet.debit_wallet, not_le.mpr h]

/-- Witness for C5: wallet with balance 10; credit 5, debit 4, debit 15. -/
theorem C5_wallet_ledger_ops_witness :
    (((Wallet.mk 1 2 10).credit_wallet 5).balance = 15) ∧
    (((Wallet.mk 1 2 10).debit_wallet 4).2 = true ∧
      ((Wallet.mk 1 2 10).debit_wallet 4).1.balance = 6) ∧
    (((Wallet.mk 1 2 10).debit_wallet 15).2 = false ∧
      ((Wallet.mk 1 2 10).debit_wallet 15).1 = ⟨1, 2, 10⟩) := by
  have h4 := C5_wallet_ledger_ops ⟨1, 2, 10⟩ 4
  have h15 := C5_wallet_ledger_ops ⟨1, 2, 10⟩ 15
  have h5 := C5_wallet_ledger_ops ⟨1, 2, 10⟩ 5
  refine ⟨by simpa using h5.1, ?_, h15.2.2 (by decide)⟩
  have := h4.2.1 (by decide)
  simpa using this

/-- **C8**: a webhook request carrying a signature different from the hex
HMAC-SHA512 of the raw body under the configured secret is rejected with
HTTP 401 and no state change: the database is returned untouched and no
further processing happens (`hmacHex` abstracts the HMAC computation). -/
theorem C8_invalid_signature_rejected (hmacHex : String → String → String)
    (jsonParse : String → Option WebhookPayload) (verifyFn : String → VerifyResult)
    (sec : String) (db : DB) (sig raw : String) (today : Nat)
    (h : sig ≠ hmacHex sec raw) :
    PaystackWebhookAPI_post hmacHex jsonParse verifyFn (some sec) db (some sig) raw today =
      (db, WebhookOutcome.invalidSignature, 401) := by
  have h' : hmacHex sec raw ≠ sig := fun e => h e.symm
  simp [PaystackWebhookAPI_post, h']

/-- Witness for C8: a concrete mismatching signature is rejected. -/
theorem C8_invalid_signature_rejected_witness :
    ("bad" ≠ "good") ∧
    PaystackWebhookAPI_post (fun x y => "good") (fun x => none) (fun x => ⟨false, none⟩)
      (some "k") db0 (some "bad") "body" 0 = (db0, WebhookOutcome.invalidSignature, 401) :=
  ⟨by decide,
   C8_invalid_signature_rejected (fun x y => "good") (fun x => none) (fun x => ⟨false, none⟩)
     "k" db0 "bad" "body" 0 (by decide)⟩

end BSCore

namespace BSCore

/-- The queued branch of the webhook receiver: valid signature, parseable
body with a reference, tolerated event, no local payment — one new
unprocessed `WebhookEvent` row with zero attempts is appended and the
request is acknowledged with HTTP 200. -/
theorem webhook_queued_step (hmacHex : String → String → String)
    (jsonParse : String → Option WebhookPayload) (verifyFn : String → VerifyResult)
    (sec : String) (db : DB) (sig raw : String) (today : Nat) (ev : Option String)
    (ref : String)
    (hsig : hmacHex sec raw = sig)
    (hparse : jsonParse raw = some ⟨ev, some ref⟩)
    (hev : (match ev with
            | some e => paystack_allowed_events.contains e
            | none => true) = true)
    (hnp : findPayment db ref = none) :
    PaystackWebhookAPI_post hmacHex jsonParse verifyFn (some sec) db (some sig) raw today =
      ({ db with
          webhookEvents := db.webhookEvents ++
            [⟨db.clock, ev, ref, sig, false, 0, none, none, db.clock⟩],
          clock := db.clock + 1 }, .queued, 200) := by
  cases ev with
  | none => simp [PaystackWebhookAPI_post, hsig, hparse, hnp]
  | some e =>
    have he : e ∈ paystack_allowed_events := by
      have := hev
      simp only [] at this
      simpa using this
    simp [PaystackWebhookAPI_post, hsig, hparse, hnp, he]

end BSCore

namespace BSCore

/-- **C10**: nothing deduplicates webhook deliveries by reference: while no
local Payment exists for `ref`, each delivery of the same correctly signed
notification appends one more unprocessed `WebhookEvent` row, so n duplicate
deliveries leave n more unprocessed rows for that reference (and the
payments table is untouched, so the condition persists). -/
theorem C10_duplicate_webhooks_accumulate (hmacHex : String → String → String)
    (jsonParse : String → Option WebhookPayload) (verifyFn : String → VerifyResult)
    (sec : String) (db : DB) (sig raw : String) (today : Nat) (ev : Option String)
    (ref : String)
    (hsig : hmacHex sec raw = sig)
    (hparse : jsonParse raw = some ⟨ev, some ref⟩)
    (hev : (match ev with
            | some e => paystack_allowed_events.contains e
            | none => true) = true)
    (hnp : findPayment db ref = none) (n : Nat) :
    ((fun d => (PaystackWebhookAPI_post hmacHex jsonParse verifyFn (some sec) d
        (some sig) raw today).1)^[n] db).webhookEvents.countP
        (fun e => e.reference == ref && e.processed == false) =
      db.webhookEvents.countP (fun e => e.reference == ref && e.processed == false) + n ∧
    ((fun d => (PaystackWebhookAPI_post hmacHex jsonParse verifyFn (some sec) d
        (some sig) raw today).1)^[n] db).payments = db.payments := by
  induction n with
  | zero => simp
  | succ k ih =>
    have hnp' : findPayment ((fun d => (PaystackWebhookAPI_post hmacHex jsonParse verifyFn
        (some sec) d (some sig) raw today).1)^[k] db) ref = none := by
      unfold findPayment at hnp ⊢
      rw [ih.2]
      exact hnp
    rw [Function.iterate_succ_apply']
    rw [webhook_queued_step hmacHex jsonParse verifyFn sec _ sig raw today ev ref hsig
      hparse hev hnp']
    constructor
    · simp only [List.countP_append, ih.1]
      simp
      omega
    · exact ih.2

/-- Witness for C10: three duplicate deliveries into an empty database leave
three unprocessed rows for the reference. -/
theorem C10_duplicate_webhooks_accumulate_witness :
    ((fun d => (PaystackWebhookAPI_post (fun x y => "h") (fun x => some ⟨none, some "r1"⟩)
        (fun x => ⟨false, none⟩) (some "k") d (some "h") "body" 0).1)^[3] db0).webhookEvents.countP
        (fun e => e.reference == "r1" && e.processed == false) = 3 := by
  have h := C10_duplicate_webhooks_accumulate (fun x y => "h")
    (fun x => some ⟨none, some "r1"⟩) (fun x => ⟨false, none⟩) "k" db0 "h" "body" 0
    none "r1" rfl rfl rfl rfl 3
  simpa [db0] using h.1

end BSCore

namespace BSCore

/-! ### Frame lemmas: which tables each operation leaves untouched -/

@[simp] theorem savePayment_vendors (db : DB) (p : Payment) :
    (savePayment db p).vendors = db.vendors := rfl

@[simp] theorem savePayment_wallets (db : DB) (p : Payment) :
    (savePayment db p).wallets = db.wallets := rfl

@[simp] theorem savePayment_orders (db : DB) (p : Payment) :
    (savePayment db p).orders = db.orders := rfl

@[simp] theorem savePayment_subscriptions (db : DB) (p : Payment) :
    (savePayment db p).subscriptions = db.subscriptions := rfl

@[simp] theorem savePayment_payouts (db : DB) (p : Payment) :
    (savePayment db p).payouts = db.payouts := rfl

@[simp] theorem savePayment_payoutItems (db : DB) (p : Payment) :
    (savePayment db p).payoutItems = db.payoutItems := rfl

@[simp] theorem savePayment_webhookEvents (db : DB) (p : Payment) :
    (savePayment db p).webhookEvents = db.webhookEvents := rfl

@[simp] theorem savePayment_clock (db : DB) (p : Payment) :
    (savePayment db p).clock = db.clock := rfl

@[simp] theorem saveWallet_vendors (db : DB) (w : Wallet) :
    (saveWallet db w).vendors = db.vendors := rfl

@[simp] theorem saveWallet_orders (db : DB) (w : Wallet) :
    (saveWallet db w).orders = db.orders := rfl

@[simp] theorem saveWallet_subscriptions (db : DB) (w : Wallet) :
    (saveWallet db w).subscriptions = db.subscriptions := rfl

@[simp] theorem saveWallet_payments (db : DB) (w : Wallet) :
    (saveWallet db w).payments = db.payments := rfl

@[simp] theorem saveWallet_payouts (db : DB) (w : Wallet) :
    (saveWallet db w).payouts = db.payouts := rfl

@[simp] theorem saveWallet_payoutItems (db : DB) (w : Wallet) :
    (saveWallet db w).payoutItems = db.payoutItems := rfl

@[simp] theorem saveWallet_webhookEvents (db : DB) (w : Wallet) :
    (saveWallet db w).webhookEvents = db.webhookEvents := rfl

@[simp] theorem saveWallet_clock (db : DB) (w : Wallet) :
    (saveWallet db w).clock = db.clock := rfl

@[simp] theorem saveSubscription_vendors (db : DB) (s : Subscription) :
    (saveSubscription db s).vendors = db.vendors := rfl

@[simp] theorem saveSubscription_wallets (db : DB) (s : Subscription) :
    (saveSubscription db s).wallets = db.wallets := rfl

@[simp] theorem saveSubscription_orders (db : DB) (s : Subscription) :
    (saveSubscription db s).orders = db.orders := rfl

@[simp] theorem saveSubscription_payments (db : DB) (s : Subscription) :
    (saveSubscription db s).payments = db.payments := rfl

@[simp] theorem saveSubscription_payouts (db : DB) (s : Subscription) :
    (saveSubscription db s).payouts = db.payouts := rfl

@[simp] theorem saveSubscription_payoutItems (db : DB) (s : Subscription) :
    (saveSubscription db s).payoutItems = db.payoutItems := rfl

@[simp] theorem saveSubscription_webhookEvents (db : DB) (s : Subscription) :
    (saveSubscription db s).webhookEvents = db.webhookEvents := rfl

@[simp] theorem saveSubscription_clock (db : DB) (s : Subscription) :
    (saveSubscription db s).clock = db.clock := rfl

@[simp] theorem create_payouts_vendors (db : DB) (p : Payment) :
    (create_payouts_for_order_payment db p).vendors = db.vendors := by
  unfold create_payouts_for_order_payment
  repeat' split
  all_goals rfl

@[simp] theorem create_payouts_wallets (db : DB) (p : Payment) :
    (create_payouts_for_order_payment db p).wallets = db.wallets := by
  unfold create_payouts_for_order_payment
  repeat' split
  all_goals rfl

@[simp] theorem create_payouts_orders (db : DB) (p : Payment) :
    (create_payouts_for_order_payment db p).orders = db.orders := by
  unfold create_payouts_for_order_payment
  repeat' split
  all_goals rfl

@[simp] theorem create_payouts_subscriptions (db : DB) (p : Payment) :
    (create_payouts_for_order_payment db p).subscriptions = db.subscriptions := by
  unfold create_payouts_for_order_payment
  repeat' split
  all_goals rfl

@[simp] theorem create_payouts_payments (db : DB) (p : Payment) :
    (create_payouts_for_order_payment db p).payments = db.payments := by
  unfold create_payouts_for_order_payment
  repeat' split
  all_goals rfl

@[simp] theorem create_payouts_webhookEvents (db : DB) (p : Payment) :
    (create_payouts_for_order_payment db p).webhookEvents = db.webhookEvents := by
  unfold create_payouts_for_order_payment
  repeat' split
  all_goals rfl

@[simp] theorem create_payouts_clock (db : DB) (p : Payment) :
    (create_payouts_for_order_payment db p).clock = db.clock := by
  unfold create_payouts_for_order_payment
  repeat' split
  all_goals rfl

end BSCore

namespace BSCore

@[simp] theorem walletEffectStep_vendors (db : DB) (p : Payment) :
    (walletEffectStep db p).1.vendors = db.vendors := by
  unfold walletEffectStep
  repeat' split
  all_goals rfl

@[simp] theorem walletEffectStep_orders (db : DB) (p : Payment) :
    (walletEffectStep db p).1.orders = db.orders := by
  unfold walletEffectStep
  repeat' split
  all_goals rfl

@[simp] theorem walletEffectStep_subscriptions (db : DB) (p : Payment) :
    (walletEffectStep db p).1.subscriptions = db.subscriptions := by
  unfold walletEffectStep
  repeat' split
  all_goals rfl

@[simp] theorem walletEffectStep_payments (db : DB) (p : Payment) :
    (walletEffectStep db p).1.payments = db.payments := by
  unfold walletEffectStep
  repeat' split
  all_goals rfl

@[simp] theorem walletEffectStep_payouts (db : DB) (p : Payment) :
    (walletEffectStep db p).1.payouts = db.payouts := by
  unfold walletEffectStep
  repeat' split
  all_goals rfl

@[simp] theorem walletEffectStep_payoutItems (db : DB) (p : Payment) :
    (walletEffectStep db p).1.payoutItems = db.payoutItems := by
  unfold walletEffectStep
  repeat' split
  all_goals rfl

@[simp] theorem walletEffectStep_webhookEvents (db : DB) (p : Payment) :
    (walletEffectStep db p).1.webhookEvents = db.webhookEvents := by
  unfold walletEffectStep
  repeat' split
  all_goals rfl

@[simp] theorem walletEffectStep_clock (db : DB) (p : Payment) :
    (walletEffectStep db p).1.clock = db.clock := by
  unfold walletEffectStep
  repeat' split
  all_goals rfl

@[simp] theorem subscriptionEffectStep_vendors (db : DB) (p : Payment) (t : Nat) :
    (subscriptionEffectStep db p t).1.vendors = db.vendors := by
  unfold subscriptionEffectStep
  repeat' split
  all_goals rfl

@[simp] theorem subscriptionEffectStep_wallets (db : DB) (p : Payment) (t : Nat) :
    (subscriptionEffectStep db p t).1.wallets = db.wallets := by
  unfold subscriptionEffectStep
  repeat' split
  all_goals rfl

@[simp] theorem subscriptionEffectStep_orders (db : DB) (p : Payment) (t : Nat) :
    (subscriptionEffectStep db p t).1.orders = db.orders := by
  unfold subscriptionEffectStep
  repeat' split
  all_goals rfl

@[simp] theorem subscriptionEffectStep_payments (db : DB) (p : Payment) (t : Nat) :
    (subscriptionEffectStep db p t).1.payments = db.payments := by
  unfold subscriptionEffectStep
  repeat' split
  all_goals rfl

@[simp] theorem subscriptionEffectStep_payouts (db : DB) (p : Payment) (t : Nat) :
    (subscriptionEffectStep db p t).1.payouts = db.payouts := by
  unfold subscriptionEffectStep
  repeat' split
  all_goals rfl

@[simp] theorem subscriptionEffectStep_payoutItems (db : DB) (p : Payment) (t : Nat) :
    (subscriptionEffectStep db p t).1.payoutItems = db.payoutItems := by
  unfold subscriptionEffectStep
  repeat' split
  all_goals rfl

@[simp] theorem subscriptionEffectStep_webhookEvents (db : DB) (p : Payment) (t : Nat) :
    (subscriptionEffectStep db p t).1.webhookEvents = db.webhookEvents := by
  unfold subscriptionEffectStep
  repeat' split
  all_goals rfl

@[simp] theorem subscriptionEffectStep_clock (db : DB) (p : Payment) (t : Nat) :
    (subscriptionEffectStep db p t).1.clock = db.clock := by
  unfold subscriptionEffectStep
  repeat' split
  all_goals rfl

@[simp] theorem locked_fst_vendors (db : DB) (p : Payment) (t : Nat) :
    (_apply_payment_success_effects_locked db p t).1.vendors = db.vendors := by
  unfold _apply_payment_success_effects_locked
  split <;> simp

@[simp] theorem locked_fst_orders (db : DB) (p : Payment) (t : Nat) :
    (_apply_payment_success_effects_locked db p t).1.orders = db.orders := by
  unfold _apply_payment_success_effects_locked
  split <;> simp

@[simp] theorem locked_fst_webhookEvents (db : DB) (p : Payment) (t : Nat) :
    (_apply_payment_success_effects_locked db p t).1.webhookEvents = db.webhookEvents := by
  unfold _apply_payment_success_effects_locked
  split <;> simp

@[simp] theorem locked_fst_clock (db : DB) (p : Payment) (t : Nat) :
    (_apply_payment_success_effects_locked db p t).1.clock = db.clock := by
  unfold _apply_payment_success_effects_locked
  split <;> simp

end BSCore

namespace BSCore

/-! ### Payment-field preservation of the effect steps -/

@[simp] theorem walletEffectStep_snd_id (db : DB) (p : Payment) :
    (walletEffectStep db p).2.id = p.id := by
  unfold walletEffectStep
  repeat' split
  all_goals rfl

@[simp] theorem walletEffectStep_snd_payment_id (db : DB) (p : Payment) :
    (walletEffectStep db p).2.payment_id = p.payment_id := by
  unfold walletEffectStep
  repeat' split
  all_goals rfl

@[simp] theorem walletEffectStep_snd_order_id (db : DB) (p : Payment) :
    (walletEffectStep db p).2.order_id = p.order_id := by
  unfold walletEffectStep
  repeat' split
  all_goals rfl

@[simp] theorem walletEffectStep_snd_subscription_id (db : DB) (p : Payment) :
    (walletEffectStep db p).2.subscription_id = p.subscription_id := by
  unfold walletEffectStep
  repeat' split
  all_goals rfl

@[simp] theorem walletEffectStep_snd_vendor_id (db : DB) (p : Payment) :
    (walletEffectStep db p).2.vendor_id = p.vendor_id := by
  unfold walletEffectStep
  repeat' split
  all_goals rfl

@[simp] theorem walletEffectStep_snd_amount (db : DB) (p : Payment) :
    (walletEffectStep db p).2.amount = p.amount := by
  unfold walletEffectStep
  repeat' split
  all_goals rfl

@[simp] theorem walletEffectStep_snd_payment_type (db : DB) (p : Payment) :
    (walletEffectStep db p).2.payment_type = p.payment_type := by
  unfold walletEffectStep
  repeat' split
  all_goals rfl

@[simp] theorem walletEffectStep_snd_status (db : DB) (p : Payment) :
    (walletEffectStep db p).2.status = p.status := by
  unfold walletEffectStep
  repeat' split
  all_goals rfl

@[simp] theorem walletEffectStep_snd_status_code (db : DB) (p : Payment) :
    (walletEffectStep db p).2.status_code = p.status_code := by
  unfold walletEffectStep
  repeat' split
  all_goals rfl

@[simp] theorem walletEffectStep_snd_sub_flag (db : DB) (p : Payment) :
    (walletEffectStep db p).2.subscription_effects_applied =
      p.subscription_effects_applied := by
  unfold walletEffectStep
  repeat' split
  all_goals rfl

@[simp] theorem subscriptionEffectStep_snd_id (db : DB) (p : Payment) (t : Nat) :
    (subscriptionEffectStep db p t).2.id = p.id := by
  unfold subscriptionEffectStep
  repeat' split
  all_goals rfl

@[simp] theorem subscriptionEffectStep_snd_payment_id (db : DB) (p : Payment) (t : Nat) :
    (subscriptionEffectStep db p t).2.payment_id = p.payment_id := by
  unfold subscriptionEffectStep
  repeat' split
  all_goals rfl

@[simp] theorem subscriptionEffectStep_snd_order_id (db : DB) (p : Payment) (t : Nat) :
    (subscriptionEffectStep db p t).2.order_id = p.order_id := by
  unfold subscriptionEffectStep
  repeat' split
  all_goals rfl

@[simp] theorem subscriptionEffectStep_snd_subscription_id (db : DB) (p : Payment) (t : Nat) :
    (subscriptionEffectStep db p t).2.subscription_id = p.subscription_id := by
  unfold subscriptionEffectStep
  repeat' split
  all_goals rfl

@[simp] theorem subscriptionEffectStep_snd_vendor_id (db : DB) (p : Payment) (t : Nat) :
    (subscriptionEffectStep db p t).2.vendor_id = p.vendor_id := by
  unfold subscriptionEffectStep
  repeat' split
  all_goals rfl

@[simp] theorem subscriptionEffectStep_snd_amount (db : DB) (p : Payment) (t : Nat) :
    (subscriptionEffectStep db p t).2.amount = p.amount := by
  unfold subscriptionEffectStep
  repeat' split
  all_goals rfl

@[simp] theorem subscriptionEffectStep_snd_payment_type (db : DB) (p : Payment) (t : Nat) :
    (subscriptionEffectStep db p t).2.payment_type = p.payment_type := by
  unfold subscriptionEffectStep
  repeat' split
  all_goals rfl

@[simp] theorem subscriptionEffectStep_snd_status (db : DB) (p : Payment) (t : Nat) :
    (subscriptionEffectStep db p t).2.status = p.status := by
  unfold subscriptionEffectStep
  repeat' split
  all_goals rfl

@[simp] theorem subscriptionEffectStep_snd_status_code (db : DB) (p : Payment) (t : Nat) :
    (subscriptionEffectStep db p t).2.status_code = p.status_code := by
  unfold subscriptionEffectStep
  repeat' split
  all_goals rfl

@[simp] theorem subscriptionEffectStep_snd_wallet_flag (db : DB) (p : Payment) (t : Nat) :
    (subscriptionEffectStep db p t).2.vendor_credited_debited =
      p.vendor_credited_debited := by
  unfold subscriptionEffectStep
  repeat' split
  all_goals rfl

/-- A payment already marked credited/debited is left alone by the wallet step. -/
theorem walletEffectStep_of_flag_true (db : DB) (p : Payment)
    (h : p.vendor_credited_debited = true) :
    walletEffectStep db p = (db, p) := by
  unfold walletEffectStep
  rw [if_neg]
  simp [h]

/-- A payment already marked subscription-applied is left alone by the
subscription step. -/
theorem subscriptionEffectStep_of_flag_true (db : DB) (p : Payment) (t : Nat)
    (h : p.subscription_effects_applied = true) :
    subscriptionEffectStep db p t = (db, p) := by
  unfold subscriptionEffectStep
  cases hs : p.subscription_id <;> simp [h]

@[simp] theorem locked_snd_id (db : DB) (p : Payment) (t : Nat) :
    (_apply_payment_success_effects_locked db p t).2.id = p.id := by
  unfold _apply_payment_success_effects_locked
  simp

@[simp] theorem locked_snd_payment_id (db : DB) (p : Payment) (t : Nat) :
    (_apply_payment_success_effects_locked db p t).2.payment_id = p.payment_id := by
  unfold _apply_payment_success_effects_locked
  simp

@[simp] theorem locked_snd_order_id (db : DB) (p : Payment) (t : Nat) :
    (_apply_payment_success_effects_locked db p t).2.order_id = p.order_id := by
  unfold _apply_payment_success_effects_locked
  simp

@[simp] theorem locked_snd_subscription_id (db : DB) (p : Payment) (t : Nat) :
    (_apply_payment_success_effects_locked db p t).2.subscription_id =
      p.subscription_id := by
  unfold _apply_payment_success_effects_locked
  simp

@[simp] theorem locked_snd_vendor_id (db : DB) (p : Payment) (t : Nat) :
    (_apply_payment_success_effects_locked db p t).2.vendor_id = p.vendor_id := by
  unfold _apply_payment_success_effects_locked
  simp

@[simp] theorem locked_snd_amount (db : DB) (p : Payment) (t : Nat) :
    (_apply_payment_success_effects_locked db p t).2.amount = p.amount := by
  unfold _apply_payment_success_effects_locked
  simp

@[simp] theorem locked_snd_payment_type (db : DB) (p : Payment) (t : Nat) :
    (_apply_payment_success_effects_locked db p t).2.payment_type = p.payment_type := by
  unfold _apply_payment_success_effects_locked
  simp

@[simp] theorem locked_snd_status (db : DB) (p : Payment) (t : Nat) :
    (_apply_payment_success_effects_locked db p t).2.status = p.status := by
  unfold _apply_payment_success_effects_locked
  simp

@[simp] theorem locked_snd_status_code (db : DB) (p : Payment) (t : Nat) :
    (_apply_payment_success_effects_locked db p t).2.status_code = p.status_code := by
  unfold _apply_payment_success_effects_locked
  simp

/-- The wallet guard flag is monotone under the locked effect applier. -/
theorem locked_wallet_flag_mono (db : DB) (p : Payment) (t : Nat)
    (h : p.vendor_credited_debited = true) :
    (_apply_payment_success_effects_locked db p t).2.vendor_credited_debited = true := by
  unfold _apply_payment_success_effects_locked
  have h1 := walletEffectStep_of_flag_true
    (if p.order_id.isSome then create_payouts_for_order_payment db p else db) p h
  simp [h1, h]

/-- The subscription guard flag is monotone under the locked effect applier. -/
theorem locked_sub_flag_mono (db : DB) (p : Payment) (t : Nat)
    (h : p.subscription_effects_applied = true) :
    (_apply_payment_success_effects_locked db p t).2.subscription_effects_applied = true := by
  unfold _apply_payment_success_effects_locked
  have h2 := subscriptionEffectStep_of_flag_true
    (walletEffectStep (if p.order_id.isSome then create_payouts_for_order_payment db p else db) p).1
    (walletEffectStep (if p.order_id.isSome then create_payouts_for_order_payment db p else db) p).2 t
    (by simp [h])
  simp [h2, h]

end BSCore

namespace BSCore

/-- Re-reading a just-saved payment row by primary key yields the saved row
(provided some row with that key exists, e.g. the one that was loaded). -/
theorem find_map_replace (l : List Payment) (p : Payment)
    (h : ∃ q ∈ l, q.id = p.id) :
    (l.map (fun x => if x.id = p.id then p else x)).find?
      (fun x => x.id = p.id) = some p := by
  induction l with
  | nil => simp at h
  | cons a as ih =>
    by_cases ha : a.id = p.id
    · simp [ha]
    · have h' : ∃ q ∈ as, q.id = p.id := by
        rcases h with ⟨q, hq, hid⟩
        rcases List.mem_cons.mp hq with rfl | hq'
        · exact absurd hid ha
        · exact ⟨q, hq', hid⟩
      simp [ha, ih h']

/-- `getPaymentByPk` after `savePayment`. -/
theorem getPaymentByPk_savePayment (db : DB) (p : Payment)
    (h : ∃ q ∈ db.payments, q.id = p.id) :
    getPaymentByPk (savePayment db p) p.id = some p := by
  unfold getPaymentByPk savePayment
  exact find_map_replace db.payments p h

/-- When the guard passes and the row re-read returns the same payment, the
public effect applier reduces to the locked one. -/
theorem apply_eq_locked (db : DB) (p : Payment) (t : Nat)
    (hs : p.status = PaymentStatus.SUCCESS)
    (hc : p.status_code = some PaymentStatusCode.SUCCESS)
    (hfind : getPaymentByPk db p.id = some p) :
    apply_payment_success_effects db p t =
      _apply_payment_success_effects_locked db p t := by
  unfold apply_payment_success_effects
  simp [hs, hc, hfind]

end BSCore

namespace BSCore

/-- **C2 (amended)**: for every payment that is SUCCESS with status_code
SUCCESS, a later "failed"/"pending" observation is discarded.  On the
verify-and-apply path (`finalize_paystack_payment`) the database is returned
untouched — status, status_code and both guard flags unchanged.  On the
status-poll path (`PaymentStatusCheckAPI.get`) status and status_code stay
SUCCESS and the guard flags are never reset, but the poll path still runs the
idempotent effect applier, which may flip a guard flag that is still false to
true (the amendment the code forces); a payment whose status is SUCCESS while
its status_code is not SUCCESS is outside the sticky guard and can be
downgraded (see the counterexample). -/
theorem C2_success_sticky :
    (∀ (db : DB) (ref : String) (verify : VerifyResult) (t : Nat) (p : Payment)
        (d : VerifyData),
      findPayment db ref = some p →
      p.status = PaymentStatus.SUCCESS →
      p.status_code = some PaymentStatusCode.SUCCESS →
      verify.ok = true → verify.data = some d → d.status_text ≠ "success" →
      finalize_paystack_payment db ref verify t =
        (db, ⟨.ofPayment PaymentStatus.SUCCESS, 200, some p⟩)) ∧
    (∀ (db : DB) (pid : String) (code : Option PaymentStatusCode) (t : Nat)
        (p : Payment),
      findPayment db pid = some p →
      p.status = PaymentStatus.SUCCESS →
      p.status_code = some PaymentStatusCode.SUCCESS →
      code ≠ some PaymentStatusCode.SUCCESS →
      ∃ p', (PaymentStatusCheckAPI_get db (some pid) code t).2 = .ok p' ∧
        p'.status = PaymentStatus.SUCCESS ∧
        p'.status_code = some PaymentStatusCode.SUCCESS ∧
        (p.vendor_credited_debited = true → p'.vendor_credited_debited = true) ∧
        (p.subscription_effects_applied = true → p'.subscription_effects_applied = true)) := by
  constructor
  · intro db ref verify t p d hp hs hc hok hd hne
    unfold finalize_paystack_payment
    simp [hp, hok, hd, hs, hc, hne]
  · intro db pid code t p hp hs hc hcode
    have hmem : p ∈ db.payments := List.mem_of_find?_eq_some hp
    have hfind : getPaymentByPk (savePayment db p) p.id = some p :=
      getPaymentByPk_savePayment db p ⟨p, hmem, rfl⟩
    have happ := apply_eq_locked (savePayment db p) p t hs hc hfind
    have hA : p.status = PaymentStatus.SUCCESS ∧
        p.status_code = some PaymentStatusCode.SUCCESS := ⟨hs, hc⟩
    unfold PaymentStatusCheckAPI_get
    simp only [hp, hs, hc, hcode]
    by_cases hF : code = some PaymentStatusCode.FAILED
    · simp only [hF]
      simp
      rw [if_pos hA, happ]
      exact ⟨_, rfl, by simp [hs], by simp [hc],
             fun h => locked_wallet_flag_mono _ p t h,
             fun h => locked_sub_flag_mono _ p t h⟩
    · simp only [hF]
      simp [hcode]
      rw [if_pos hA, happ]
      exact ⟨_, rfl, by simp [hs], by simp [hc],
             fun h => locked_wallet_flag_mono _ p t h,
             fun h => locked_sub_flag_mono _ p t h⟩

/-- Counterexample to C2 as stated: a payment whose `status` is SUCCESS but
whose `status_code` is not SUCCESS (here: NULL, exactly how
`initiate_paystack_payment` creates rows) fails the `already_success` guard,
so a later "failed" verification downgrades it to FAILED. -/
theorem C2_counterexample :
    (findPayment
        ⟨[], [], [], [], [⟨1, "r", none, none, none, none, 50, PaymentType.DEBIT,
          PaymentStatus.SUCCESS, none, false, false⟩], [], [], [], 0⟩ "r").map
        (fun p => p.status) = some PaymentStatus.SUCCESS ∧
    ((finalize_paystack_payment
        ⟨[], [], [], [], [⟨1, "r", none, none, none, none, 50, PaymentType.DEBIT,
          PaymentStatus.SUCCESS, none, false, false⟩], [], [], [], 0⟩
        "r" ⟨true, some ⟨"failed"⟩⟩ 0).1.payments.map (fun p => p.status)) =
      [PaymentStatus.FAILED] := by
  constructor
  · rfl
  · rfl

end BSCore

namespace BSCore

/-- Concrete SUCCESS payment used by the C2 witness. -/
def paymentC2 : Payment :=
  ⟨1, "r", none, none, none, none, 50, PaymentType.DEBIT, PaymentStatus.SUCCESS,
   some PaymentStatusCode.SUCCESS, true, true⟩

/-- Concrete database used by the C2 witness. -/
def dbC2 : DB := ⟨[], [], [], [], [paymentC2], [], [], [], 0⟩

/-- Witness for C2: a concrete SUCCESS/SUCCESS payment fed a "failed"
verification and a FAILED poll code. -/
theorem C2_success_sticky_witness :
    (finalize_paystack_payment dbC2 "r" ⟨true, some ⟨"failed"⟩⟩ 0 =
      (dbC2, ⟨.ofPayment PaymentStatus.SUCCESS, 200, some paymentC2⟩)) ∧
    (∃ p', (PaymentStatusCheckAPI_get dbC2 (some "r")
        (some PaymentStatusCode.FAILED) 0).2 = .ok p' ∧
      p'.status = PaymentStatus.SUCCESS ∧
      p'.status_code = some PaymentStatusCode.SUCCESS ∧
      (paymentC2.vendor_credited_debited = true → p'.vendor_credited_debited = true) ∧
      (paymentC2.subscription_effects_applied = true →
        p'.subscription_effects_applied = true)) := by
  constructor
  · exact C2_success_sticky.1 dbC2 "r" ⟨true, some ⟨"failed"⟩⟩ 0 paymentC2 ⟨"failed"⟩
      rfl rfl rfl rfl rfl (by decide)
  · exact C2_success_sticky.2 dbC2 "r" (some PaymentStatusCode.FAILED) 0 paymentC2
      rfl rfl rfl (by decide)

end BSCore

namespace BSCore

/-- **C9**: a SUCCESS cashout payment (CREDIT, vendor set, no order) whose
vendor wallet balance is below the payment amount leaves the wallet table
unchanged and `vendor_credited_debited` false — the payment is not marked
applied-with-failure — and a later invocation of the effect applier attempts
the debit again: once the wallet covers the amount, that invocation performs
the debit and sets the flag. -/
theorem C9_cashout_debit_failure (db : DB) (p : Payment) (t : Nat) (v : Nat) (w : Wallet)
    (horder : p.order_id = none)
    (hv : p.vendor_id = some v)
    (htype : p.payment_type = PaymentType.CREDIT)
    (hflag : p.vendor_credited_debited = false)
    (hvend : db.vendors.contains v = true)
    (hw : get_wallet db v = some w)
    (hbal : w.balance < p.amount) :
    ((_apply_payment_success_effects_locked db p t).1.wallets = db.wallets) ∧
    ((_apply_payment_success_effects_locked db p t).2.vendor_credited_debited = false) ∧
    (∀ (db2 : DB) (w2 : Wallet),
      db2.vendors.contains v = true →
      get_wallet db2 v = some w2 →
      w2.balance ≥ p.amount →
      ((_apply_payment_success_effects_locked db2
          ((_apply_payment_success_effects_locked db p t).2) t).2.vendor_credited_debited
        = true) ∧
      (_apply_payment_success_effects_locked db2
          ((_apply_payment_success_effects_locked db p t).2) t).1.wallets =
        db2.wallets.map (fun x => if x.id = w2.id then
          ⟨w2.id, w2.vendor_id, w2.balance - p.amount⟩ else x)) := by
  have hmem : v ∈ db.vendors := by simpa using hvend
  have hdeb : (w.debit_wallet p.amount).2 = false := by
    simp [Wallet.debit_wallet, not_le.mpr hbal]
  have hw1 : walletEffectStep db p = (db, p) := by
    unfold walletEffectStep
    rw [if_pos ⟨horder, by simp [hv], hflag⟩]
    simp [hv, hmem, hw, htype, hdeb]
  refine ⟨?_, ?_, ?_⟩
  · unfold _apply_payment_success_effects_locked
    simp [horder, hw1]
  · unfold _apply_payment_success_effects_locked
    simp [horder, hw1, hflag]
  · intro db2 w2 hvend2 hw2 hbal2
    have hmem2 : v ∈ db2.vendors := by simpa using hvend2
    have hflag' : (_apply_payment_success_effects_locked db p t).2.vendor_credited_debited
        = false := by
      unfold _apply_payment_success_effects_locked
      simp [horder, hw1, hflag]
    have hdeb2 : (w2.debit_wallet p.amount) =
        (⟨w2.id, w2.vendor_id, w2.balance - p.amount⟩, true) := by
      unfold Wallet.debit_wallet
      rw [if_pos hbal2]
    have hw1' : walletEffectStep db2 ((_apply_payment_success_effects_locked db p t).2) =
        (saveWallet db2 ⟨w2.id, w2.vendor_id, w2.balance - p.amount⟩,
         { (_apply_payment_success_effects_locked db p t).2 with
             vendor_credited_debited := true }) := by
      unfold walletEffectStep
      rw [if_pos ⟨by simp [horder], by simp [hv], hflag'⟩]
      simp [hv, hmem2, hw2, htype, hdeb2]
    have hqo : (_apply_payment_success_effects_locked db p t).2.order_id = none := by
      simp [horder]
    revert hflag' hw1' hqo
    generalize (_apply_payment_success_effects_locked db p t).2 = q
    intro hflag' hw1' hqo
    constructor
    · unfold _apply_payment_success_effects_locked
      simp [hqo, hw1']
    · unfold _apply_payment_success_effects_locked
      simp [hqo, hw1', saveWallet]

end BSCore

namespace BSCore

/-- Concrete cashout payment used by the C9 witness. -/
def paymentC9 : Payment :=
  ⟨1, "c", none, none, none, some 7, 10, PaymentType.CREDIT, PaymentStatus.SUCCESS,
   some PaymentStatusCode.SUCCESS, false, false⟩

/-- Database for the C9 witness: wallet balance 5 < amount 10. -/
def dbC9 : DB := ⟨[7], [⟨1, 7, 5⟩], [], [], [paymentC9], [], [], [], 0⟩

/-- Database for the C9 witness re-invocation: wallet topped up to 20. -/
def dbC9b : DB := ⟨[7], [⟨1, 7, 20⟩], [], [], [paymentC9], [], [], [], 0⟩

/-- Witness for C9 at concrete inputs. -/
theorem C9_cashout_debit_failure_witness :
    ((_apply_payment_success_effects_locked dbC9 paymentC9 0).1.wallets = dbC9.wallets) ∧
    ((_apply_payment_success_effects_locked dbC9 paymentC9 0).2.vendor_credited_debited
      = false) ∧
    ((_apply_payment_success_effects_locked dbC9b
        ((_apply_payment_success_effects_locked dbC9 paymentC9 0).2)
        0).2.vendor_credited_debited = true) ∧
    ((_apply_payment_success_effects_locked dbC9b
        ((_apply_payment_success_effects_locked dbC9 paymentC9 0).2) 0).1.wallets =
      [⟨1, 7, 10⟩]) := by
  have h := C9_cashout_debit_failure dbC9 paymentC9 0 7 ⟨1, 7, 5⟩
    rfl rfl rfl rfl (by decide) rfl (by decide)
  have h3 := h.2.2 dbC9b ⟨1, 7, 20⟩ (by decide) rfl (by decide)
  refine ⟨h.1, h.2.1, h3.1, ?_⟩
  rw [h3.2]
  decide

end BSCore

namespace BSCore

/-- Order payments never enter the wallet branch. -/
theorem walletEffectStep_of_order (db : DB) (p : Payment) (h : p.order_id.isSome = true) :
    walletEffectStep db p = (db, p) := by
  unfold walletEffectStep
  rw [if_neg]
  rintro ⟨h1, h2, h3⟩
  rw [h1] at h
  simp at h

/-- Payments without a subscription target skip the subscription branch. -/
theorem subscriptionEffectStep_of_none (db : DB) (p : Payment) (t : Nat)
    (h : p.subscription_id = none) :
    subscriptionEffectStep db p t = (db, p) := by
  unfold subscriptionEffectStep
  rw [h]

/-- Re-reading a just-saved subscription row by primary key. -/
theorem find_map_replace_sub (l : List Subscription) (s : Subscription)
    (h : ∃ q ∈ l, q.id = s.id) :
    (l.map (fun x => if x.id = s.id then s else x)).find?
      (fun x => x.id = s.id) = some s := by
  induction l with
  | nil => simp at h
  | cons a as ih =>
    by_cases ha : a.id = s.id
    · simp [ha]
    · have h' : ∃ q ∈ as, q.id = s.id := by
        rcases h with ⟨q, hq, hid⟩
        rcases List.mem_cons.mp hq with rfl | hq'
        · exact absurd hid ha
        · exact ⟨q, hq', hid⟩
      simp [ha, ih h']

/-- **C3 (amended)**: one invocation of the locked effect applier applies the
payout fan-out exactly when the target is an Order (and then never touches a
wallet), applies a wallet movement only when there is no order target, and —
independently, not exclusively — renews the subscription (start_date = today,
end_date = today + 30) whenever a subscription target is present with
`subscription_effects_applied` false.  Fan-out and wallet movement are
mutually exclusive, but a subscription renewal can co-occur with a wallet
movement in the same invocation (see the counterexample). -/
theorem C3_effect_categories (db : DB) (p : Payment) (t : Nat) :
    (p.order_id.isSome = true →
      (_apply_payment_success_effects_locked db p t).1.wallets = db.wallets) ∧
    (p.order_id = none →
      (_apply_payment_success_effects_locked db p t).1.payouts = db.payouts ∧
      (_apply_payment_success_effects_locked db p t).1.payoutItems = db.payoutItems) ∧
    ((p.subscription_id = none ∨ p.subscription_effects_applied = true) →
      (_apply_payment_success_effects_locked db p t).1.subscriptions =
        db.subscriptions) ∧
    (∀ sid s, p.subscription_id = some sid → p.subscription_effects_applied = false →
      findSubscription db sid = some s →
      findSubscription (_apply_payment_success_effects_locked db p t).1 sid =
        some ⟨s.id, t, t + 30⟩ ∧
      (_apply_payment_success_effects_locked db p t).2.subscription_effects_applied
        = true) := by
  refine ⟨?_, ?_, ?_, ?_⟩
  · intro h
    unfold _apply_payment_success_effects_locked
    simp [h, walletEffectStep_of_order _ _ h]
  · intro h
    unfold _apply_payment_success_effects_locked
    simp [h]
  · intro h
    rcases h with hnone | hflag
    · unfold _apply_payment_success_effects_locked
      have hsub := subscriptionEffectStep_of_none
        (walletEffectStep (if p.order_id.isSome = true then
          create_payouts_for_order_payment db p else db) p).1
        (walletEffectStep (if p.order_id.isSome = true then
          create_payouts_for_order_payment db p else db) p).2 t (by simp [hnone])
      simp [hsub]
      split <;> simp
    · unfold _apply_payment_success_effects_locked
      have hsub := subscriptionEffectStep_of_flag_true
        (walletEffectStep (if p.order_id.isSome = true then
          create_payouts_for_order_payment db p else db) p).1
        (walletEffectStep (if p.order_id.isSome = true then
          create_payouts_for_order_payment db p else db) p).2 t (by simp [hflag])
      simp [hsub]
      split <;> simp
  · intro sid s hsid hflag hfound
    have hsmem : s ∈ db.subscriptions := List.mem_of_find?_eq_some hfound
    have hsid' : s.id = sid := by
      have := List.find?_some hfound
      simpa using this
    set db1 := if p.order_id.isSome = true then create_payouts_for_order_payment db p
      else db with hdb1
    have hdb1subs : db1.subscriptions = db.subscriptions := by
      rw [hdb1]
      split <;> simp
    have hsub : subscriptionEffectStep (walletEffectStep db1 p).1
        (walletEffectStep db1 p).2 t =
        (saveSubscription (walletEffectStep db1 p).1 ⟨s.id, t, t + 30⟩,
         { (walletEffectStep db1 p).2 with subscription_effects_applied := true }) := by
      have h1 : (walletEffectStep db1 p).2.subscription_id = some sid := by simp [hsid]
      have h2 : (walletEffectStep db1 p).2.subscription_effects_applied = false := by
        simp [hflag]
      have h3 : findSubscription (walletEffectStep db1 p).1 sid = some s := by
        unfold findSubscription
        rw [walletEffectStep_subscriptions, hdb1subs]
        exact hfound
      unfold subscriptionEffectStep
      simp [hsid, hflag, h3]
    constructor
    · show findSubscription (_apply_payment_success_effects_locked db p t).1 sid = _
      unfold _apply_payment_success_effects_locked
      rw [← hdb1]
      unfold findSubscription
      rw [savePayment_subscriptions]
      rw [hsub]
      show ((saveSubscription (walletEffectStep db1 p).1
        ⟨s.id, t, t + 30⟩).subscriptions.find? (fun x => x.id = sid)) = _
      unfold saveSubscription
      simp only [walletEffectStep_subscriptions, hdb1subs]
      rw [show sid = (Subscription.mk s.id t (t + 30)).id from hsid'.symm ▸ rfl]
      exact find_map_replace_sub db.subscriptions ⟨s.id, t, t + 30⟩
        ⟨s, hsmem, rfl⟩
    · unfold _apply_payment_success_effects_locked
      rw [← hdb1]
      simp [hsub]

end BSCore

namespace BSCore

/-- Subscription payment with a vendor attached (how MakePaymentAPI builds
subscription payments: the platform "Birthnon" vendor is set). -/
def paymentC3 : Payment :=
  ⟨1, "s", none, none, some 1, some 7, 10, PaymentType.DEBIT, PaymentStatus.SUCCESS,
   some PaymentStatusCode.SUCCESS, false, false⟩

/-- Database for the C3 counterexample and witness. -/
def dbC3 : DB := ⟨[7], [⟨1, 7, 100⟩], [], [⟨1, 0, 0⟩], [paymentC3], [], [], [], 0⟩

/-- Counterexample to C3 as stated: the three effect blocks are independent
`if`s, not an `elif` chain — a single invocation on a SUCCESS subscription
payment with a vendor applies BOTH the wallet credit (balance 100 → 110,
`vendor_credited_debited` true) and the subscription renewal (dates set to
today / today + 30, `subscription_effects_applied` true): two effect
categories in the same invocation. -/
theorem C3_counterexample :
    ((_apply_payment_success_effects_locked dbC3 paymentC3 500).1.wallets =
      [⟨1, 7, 110⟩]) ∧
    ((_apply_payment_success_effects_locked dbC3 paymentC3 500).1.subscriptions =
      [⟨1, 500, 530⟩]) ∧
    ((_apply_payment_success_effects_locked dbC3 paymentC3 500).2.vendor_credited_debited
      = true) ∧
    ((_apply_payment_success_effects_locked dbC3 paymentC3 500).2.subscription_effects_applied
      = true) := by
  refine ⟨?_, ?_, ?_, ?_⟩ <;> decide

/-- Witness for the amended C3 at concrete inputs. -/
theorem C3_effect_categories_witness :
    ((_apply_payment_success_effects_locked dbC3 paymentC3 500).1.payouts =
      dbC3.payouts) ∧
    (findSubscription (_apply_payment_success_effects_locked dbC3 paymentC3 500).1 1 =
      some ⟨1, 500, 530⟩) ∧
    ((_apply_payment_success_effects_locked dbC3 paymentC3 500).2.subscription_effects_applied
      = true) := by
  have h := C3_effect_categories dbC3 paymentC3 500
  have h2 := h.2.1 rfl
  have h4 := h.2.2.2 1 ⟨1, 0, 0⟩ rfl rfl rfl
  exact ⟨h2.1, h4.1, h4.2⟩

end BSCore

namespace BSCore

/-- Every selected replay event is an unprocessed stored event with fewer
than `max_attempts` attempts. -/
theorem replaySelect_mem {events : List WebhookEvent} {limit max_attempts : Nat}
    {e : WebhookEvent} (h : e ∈ replaySelect events limit max_attempts) :
    e ∈ events ∧ e.processed = false ∧ e.attempts < max_attempts := by
  unfold replaySelect sortByCreated at h
  have h1 := List.mem_of_mem_take h
  rw [List.mem_insertionSort] at h1
  have h2 := List.mem_filter.mp h1
  refine ⟨h2.1, ?_⟩
  have := h2.2
  simpa using this

/-- An id-preserving row update keeps a uniquely identified fixed row intact
and keeps its id unique. -/
theorem keep_in_map (l : List WebhookEvent) (g : WebhookEvent → WebhookEvent)
    (hg_id : ∀ x, (g x).id = x.id) (e : WebhookEvent) (hg_e : g e = e)
    (he : e ∈ l) (hu : ∀ x ∈ l, x.id = e.id → x = e) :
    e ∈ l.map g ∧ ∀ x ∈ l.map g, x.id = e.id → x = e := by
  constructor
  · exact List.mem_map.mpr ⟨e, he, hg_e⟩
  · intro x hx hid
    rcases List.mem_map.mp hx with ⟨y, hy, hxy⟩
    have hyid : y.id = e.id := by rw [← hid, ← hxy, hg_id]
    have hye : y = e := hu y hy hyid
    rw [← hxy, hye, hg_e]

@[simp] theorem finalize_fst_webhookEvents (db : DB) (ref : String) (v : VerifyResult)
    (t : Nat) :
    (finalize_paystack_payment db ref v t).1.webhookEvents = db.webhookEvents := by
  unfold finalize_paystack_payment
  repeat' split
  all_goals dsimp only
  all_goals try split_ifs
  all_goals simp

/-- One replay-loop iteration keeps an untargeted, uniquely identified event
intact. -/
theorem replayStep_keep (vf : String → Option VerifyResult) (t : Nat)
    (db : DB) (c : ReplayCounts) (evt e : WebhookEvent) (hne : evt.id ≠ e.id)
    (he : e ∈ db.webhookEvents)
    (hu : ∀ x ∈ db.webhookEvents, x.id = e.id → x = e) :
    e ∈ (replayStep vf t (db, c) evt).1.webhookEvents ∧
    ∀ x ∈ (replayStep vf t (db, c) evt).1.webhookEvents, x.id = e.id → x = e := by
  unfold replayStep updateEventById
  dsimp only
  repeat' split
  all_goals dsimp only
  all_goals try simp only [finalize_fst_webhookEvents]
  all_goals refine keep_in_map _ _ ?_ e ?_ he hu
  all_goals first
    | (intro x; dsimp only; split <;> rfl)
    | (dsimp only; rw [if_neg (fun h => hne h.symm)])

/-- The replay loop keeps an event none of the selected events target. -/
theorem foldl_replayStep_keep (vf : String → Option VerifyResult) (t : Nat)
    (sel : List WebhookEvent) (e : WebhookEvent)
    (hsel : ∀ evt ∈ sel, evt.id ≠ e.id) :
    ∀ (db : DB) (c : ReplayCounts), e ∈ db.webhookEvents →
      (∀ x ∈ db.webhookEvents, x.id = e.id → x = e) →
      e ∈ (sel.foldl (replayStep vf t) (db, c)).1.webhookEvents ∧
      ∀ x ∈ (sel.foldl (replayStep vf t) (db, c)).1.webhookEvents,
        x.id = e.id → x = e := by
  induction sel with
  | nil => intro db c he hu; exact ⟨he, hu⟩
  | cons a as ih =>
    intro db c he hu
    have hstep := replayStep_keep vf t db c a e (hsel a (by simp)) he hu
    rw [List.foldl_cons]
    have hrest := ih (fun evt hevt => hsel evt (by simp [hevt]))
      (replayStep vf t (db, c) a).1 (replayStep vf t (db, c) a).2 hstep.1 hstep.2
    simpa using hrest

/-- One replay run leaves an event whose attempts have reached the ceiling
untouched (assuming event ids identify rows, as primary keys do). -/
theorem replay_run_keep (vf : String → Option VerifyResult) (t : Nat) (db : DB)
    (limit max_attempts : Nat) (e : WebhookEvent)
    (he : e ∈ db.webhookEvents)
    (hatt : max_attempts ≤ e.attempts)
    (hu : ∀ x ∈ db.webhookEvents, x.id = e.id → x = e) :
    e ∈ (replay_paystack_webhooks vf t db limit max_attempts).1.webhookEvents ∧
    ∀ x ∈ (replay_paystack_webhooks vf t db limit max_attempts).1.webhookEvents,
      x.id = e.id → x = e := by
  unfold replay_paystack_webhooks
  refine foldl_replayStep_keep vf t _ e ?_ db ⟨0, 0, 0⟩ he hu
  intro evt hevt hid
  have hprop := replaySelect_mem hevt
  have heq : evt = e := hu evt hprop.1 hid
  rw [heq] at hprop
  omega

end BSCore

namespace BSCore

/-- **C7**: `replay(limit, max_attempts)` selects only unprocessed events with
`attempts < max_attempts`, at most `limit` of them, oldest first; and an event
whose attempts have reached `max_attempts` is never touched again (membership
and all its fields are preserved) no matter how many times replay runs,
assuming event ids identify rows as primary keys do. -/
theorem C7_bounded_retry (events : List WebhookEvent) (limit max_attempts : Nat) :
    (∀ e ∈ replaySelect events limit max_attempts,
        e.processed = false ∧ e.attempts < max_attempts) ∧
    (replaySelect events limit max_attempts).length ≤ limit ∧
    List.Sorted byCreated (replaySelect events limit max_attempts) ∧
    (∀ (vf : String → Option VerifyResult) (t : Nat) (k : Nat) (db : DB)
        (e : WebhookEvent),
      e ∈ db.webhookEvents → max_attempts ≤ e.attempts →
      (∀ x ∈ db.webhookEvents, x.id = e.id → x = e) →
      e ∈ ((fun d => (replay_paystack_webhooks vf t d limit
        max_attempts).1)^[k] db).webhookEvents ∧
      ∀ x ∈ ((fun d => (replay_paystack_webhooks vf t d limit
        max_attempts).1)^[k] db).webhookEvents, x.id = e.id → x = e) := by
  refine ⟨?_, ?_, ?_, ?_⟩
  · intro e he
    exact (replaySelect_mem he).2
  · exact List.length_take_le _ _
  · unfold replaySelect sortByCreated
    exact List.Pairwise.sublist (List.take_sublist _ _)
      (List.sorted_insertionSort byCreated _)
  · intro vf t k
    induction k with
    | zero =>
      intro db e he hatt hu
      simpa using ⟨he, hu⟩
    | succ n ih =>
      intro db e he hatt hu
      have hn := ih db e he hatt hu
      rw [Function.iterate_succ_apply']
      exact replay_run_keep vf t _ limit max_attempts e hn.1 hatt hn.2

/-- Database for the C7 witness: one exhausted event (attempts 5 ≥ 3) and one
young event. -/
def dbC7 : DB :=
  ⟨[], [], [], [], [], [], [],
   [⟨1, none, "a", "s", false, 5, none, none, 0⟩,
    ⟨2, none, "b", "s", false, 1, none, none, 1⟩], 2⟩

/-- Witness for C7: with limit 10 and max_attempts 3, two replay runs leave
the exhausted event untouched, and the selection facts hold concretely. -/
theorem C7_bounded_retry_witness :
    ((⟨2, none, "b", "s", false, 1, none, none, 1⟩ : WebhookEvent) ∈
        replaySelect dbC7.webhookEvents 10 3 →
      ((⟨2, none, "b", "s", false, 1, none, none, 1⟩ : WebhookEvent)).processed = false ∧
      ((⟨2, none, "b", "s", false, 1, none, none, 1⟩ : WebhookEvent)).attempts < 3) ∧
    (replaySelect dbC7.webhookEvents 10 3).length ≤ 10 ∧
    ((⟨1, none, "a", "s", false, 5, none, none, 0⟩ : WebhookEvent) ∈
      ((fun d => (replay_paystack_webhooks (fun x => none) 0 d 10 3).1)^[2]
        dbC7).webhookEvents) := by
  have h := C7_bounded_retry dbC7.webhookEvents 10 3
  have h4 := h.2.2.2 (fun x => none) 0 2 dbC7
    ⟨1, none, "a", "s", false, 5, none, none, 0⟩
    (by decide) (by decide) (by decide)
  exact ⟨fun hm => h.1 _ hm, h.2.1, h4.1⟩

end BSCore

namespace BSCore

/-- **C6**: a correctly signed webhook whose reference matches no local
Payment yields HTTP 200 and exactly one WebhookEvent row, unprocessed with
zero attempts (starting from a database with no queued events); replaying
while the Payment still does not exist increments `attempts` to 1 and records
"Payment still missing" without creating any additional row and without
marking the event processed. -/
theorem C6_unknown_reference_queue (hmacHex : String → String → String)
    (jsonParse : String → Option WebhookPayload) (verifyFn : String → VerifyResult)
    (sec : String) (db : DB) (sig raw : String) (today : Nat) (ev : Option String)
    (ref : String)
    (hsig : hmacHex sec raw = sig)
    (hparse : jsonParse raw = some ⟨ev, some ref⟩)
    (hev : (match ev with
            | some e => paystack_allowed_events.contains e
            | none => true) = true)
    (hnp : findPayment db ref = none)
    (hempty : db.webhookEvents = [])
    (vf : String → Option VerifyResult) (t : Nat) (limit max_attempts : Nat)
    (hl : 1 ≤ limit) (hm : 1 ≤ max_attempts) :
    (PaystackWebhookAPI_post hmacHex jsonParse verifyFn (some sec) db (some sig)
        raw today).2 = (.queued, 200) ∧
    (PaystackWebhookAPI_post hmacHex jsonParse verifyFn (some sec) db (some sig)
        raw today).1.webhookEvents =
      [⟨db.clock, ev, ref, sig, false, 0, none, none, db.clock⟩] ∧
    (replay_paystack_webhooks vf t
        (PaystackWebhookAPI_post hmacHex jsonParse verifyFn (some sec) db (some sig)
          raw today).1 limit max_attempts).1.webhookEvents =
      [⟨db.clock, ev, ref, sig, false, 1, some "Payment still missing", none,
        db.clock⟩] ∧
    (replay_paystack_webhooks vf t
        (PaystackWebhookAPI_post hmacHex jsonParse verifyFn (some sec) db (some sig)
          raw today).1 limit max_attempts).2 = ⟨0, 1, 0⟩ := by
  have hq := webhook_queued_step hmacHex jsonParse verifyFn sec db sig raw today ev ref
    hsig hparse hev hnp
  rw [hq]
  obtain ⟨n, rfl⟩ : ∃ n, limit = n + 1 := ⟨limit - 1, by omega⟩
  obtain ⟨m, rfl⟩ : ∃ m, max_attempts = m + 1 := ⟨max_attempts - 1, by omega⟩
  have hnone : ∀ x ∈ db.payments, ¬x.payment_id = ref := by
    unfold findPayment at hnp
    intro x hx
    have := List.find?_eq_none.mp hnp x hx
    simpa using this
  refine ⟨rfl, by simp [hempty], ?_, ?_⟩
  · unfold replay_paystack_webhooks replaySelect sortByCreated
    simp only [hempty]
    unfold replayStep updateEventById
    simp [List.insertionSort, findPayment, savePayment]
    rw [if_pos hnone]
  · unfold replay_paystack_webhooks replaySelect sortByCreated
    simp only [hempty]
    unfold replayStep updateEventById
    simp [List.insertionSort, findPayment, savePayment]
    rw [if_pos hnone]

end BSCore

namespace BSCore

/-- Witness for C6 at concrete inputs (empty database, reference "r1"). -/
theorem C6_unknown_reference_queue_witness :
    (PaystackWebhookAPI_post (fun x y => "h") (fun x => some ⟨none, some "r1"⟩)
        (fun x => ⟨false, none⟩) (some "k") db0 (some "h") "body" 0).2 =
      (.queued, 200) ∧
    (PaystackWebhookAPI_post (fun x y => "h") (fun x => some ⟨none, some "r1"⟩)
        (fun x => ⟨false, none⟩) (some "k") db0 (some "h") "body" 0).1.webhookEvents =
      [⟨0, none, "r1", "h", false, 0, none, none, 0⟩] ∧
    (replay_paystack_webhooks (fun x => none) 0
        (PaystackWebhookAPI_post (fun x y => "h") (fun x => some ⟨none, some "r1"⟩)
          (fun x => ⟨false, none⟩) (some "k") db0 (some "h") "body" 0).1
        5 3).1.webhookEvents =
      [⟨0, none, "r1", "h", false, 1, some "Payment still missing", none, 0⟩] ∧
    (replay_paystack_webhooks (fun x => none) 0
        (PaystackWebhookAPI_post (fun x y => "h") (fun x => some ⟨none, some "r1"⟩)
          (fun x => ⟨false, none⟩) (some "k") db0 (some "h") "body" 0).1
        5 3).2 = ⟨0, 1, 0⟩ := by
  have h := C6_unknown_reference_queue (fun x y => "h")
    (fun x => some ⟨none, some "r1"⟩) (fun x => ⟨false, none⟩) "k" db0 "h" "body" 0
    none "r1" rfl rfl rfl rfl rfl (fun x => none) 0 5 3 (by decide) (by decide)
  exact ⟨h.1, h.2.1, h.2.2.1, h.2.2.2⟩

end BSCore

namespace BSCore

/-! ### Fixed-point lemmas for the payout upsert -/

/-- Updating the found row again changes nothing: the written fields already
hold the written values. -/
theorem setPayoutFields_self (oid v : Nat) (pk : Option Nat) (pst : PaymentStatus)
    (amt : Int) :
    ∀ ps qs : List Payout, setPayoutFields oid v pk pst amt ps = some qs →
      setPayoutFields oid v pk pst amt qs = some qs := by
  intro ps
  induction ps with
  | nil => intro qs h; simp [setPayoutFields] at h
  | cons p rest ih =>
    intro qs h
    by_cases hk : p.order_id = oid ∧ p.vendor_id = v
    · simp [setPayoutFields, hk] at h
      subst h
      simp [setPayoutFields, hk]
    · simp [setPayoutFields, hk] at h
      rcases h with ⟨qs', hqs', rfl⟩
      simp [setPayoutFields, hk, ih qs' hqs']

/-- A freshly appended `newPayout` row is already a fixed point of the
update. -/
theorem setPayoutFields_none_append (oid v : Nat) (pk : Option Nat)
    (pst : PaymentStatus) (amt : Int) :
    ∀ ps : List Payout, setPayoutFields oid v pk pst amt ps = none →
      setPayoutFields oid v pk pst amt (ps ++ [newPayout oid v pk pst amt]) =
        some (ps ++ [newPayout oid v pk pst amt]) := by
  intro ps
  induction ps with
  | nil => intro h; simp [setPayoutFields, newPayout]
  | cons p rest ih =>
    intro h
    by_cases hk : p.order_id = oid ∧ p.vendor_id = v
    · simp [setPayoutFields, hk] at h
    · simp [setPayoutFields, hk] at h
      simp [setPayoutFields, hk, ih h]

/-- The upsert result is a fixed point of the update. -/
theorem upsertPayout_fix (oid v : Nat) (pk : Option Nat) (pst : PaymentStatus)
    (amt : Int) (ps : List Payout) :
    setPayoutFields oid v pk pst amt (upsertPayout oid v pk pst amt ps) =
      some (upsertPayout oid v pk pst amt ps) := by
  unfold upsertPayout
  cases h : setPayoutFields oid v pk pst amt ps with
  | some qs => exact setPayoutFields_self oid v pk pst amt ps qs h
  | none => exact setPayoutFields_none_append oid v pk pst amt ps h

/-- A fixed point for one key extends over any appended rows. -/
theorem setPayoutFields_fix_append (oid v : Nat) (pk : Option Nat)
    (pst : PaymentStatus) (amt : Int) :
    ∀ ps : List Payout, setPayoutFields oid v pk pst amt ps = some ps →
      ∀ l, setPayoutFields oid v pk pst amt (ps ++ l) = some (ps ++ l) := by
  intro ps
  induction ps with
  | nil => intro h; simp [setPayoutFields] at h
  | cons p rest ih =>
    intro h l
    by_cases hk : p.order_id = oid ∧ p.vendor_id = v
    · simp [setPayoutFields, hk] at h ⊢
      exact h
    · simp [setPayoutFields, hk] at h ⊢
      exact ih h l

end BSCore

namespace BSCore

/-- Updating a different (order, vendor) key preserves a fixed point. -/
theorem setPayoutFields_fix_other (oid v oid' v' : Nat) (pk pk' : Option Nat)
    (pst pst' : PaymentStatus) (amt amt' : Int)
    (hne : ¬(oid' = oid ∧ v' = v)) :
    ∀ ps qs : List Payout,
      setPayoutFields oid v pk pst amt ps = some ps →
      setPayoutFields oid' v' pk' pst' amt' ps = some qs →
      setPayoutFields oid v pk pst amt qs = some qs := by
  intro ps
  induction ps with
  | nil => intro qs h1 h2; simp [setPayoutFields] at h2
  | cons p rest ih =>
    intro qs h1 h2
    by_cases hk : p.order_id = oid ∧ p.vendor_id = v
    · by_cases hk' : p.order_id = oid' ∧ p.vendor_id = v'
      · exact absurd ⟨hk'.1.symm.trans hk.1, hk'.2.symm.trans hk.2⟩ hne
      · simp [setPayoutFields, hk] at h1
        simp [setPayoutFields, hk'] at h2
        rcases h2 with ⟨qs'', hqs'', rfl⟩
        simp [setPayoutFields, hk]
        exact h1
    · by_cases hk' : p.order_id = oid' ∧ p.vendor_id = v'
      · simp [setPayoutFields, hk] at h1
        simp [setPayoutFields, hk'] at h2
        subst h2
        simp [setPayoutFields, hne, h1]
      · simp [setPayoutFields, hk] at h1
        simp [setPayoutFields, hk'] at h2
        rcases h2 with ⟨qs'', hqs'', rfl⟩
        simp [setPayoutFields, hk]
        exact ih qs'' h1 hqs''

/-- Upserting a different (order, vendor) key preserves a fixed point. -/
theorem upsertPayout_fix_other (oid v oid' v' : Nat) (pk pk' : Option Nat)
    (pst pst' : PaymentStatus) (amt amt' : Int)
    (hne : ¬(oid' = oid ∧ v' = v)) (ps : List Payout)
    (hfix : setPayoutFields oid v pk pst amt ps = some ps) :
    setPayoutFields oid v pk pst amt (upsertPayout oid' v' pk' pst' amt' ps) =
      some (upsertPayout oid' v' pk' pst' amt' ps) := by
  unfold upsertPayout
  cases h : setPayoutFields oid' v' pk' pst' amt' ps with
  | some qs =>
    dsimp only
    exact setPayoutFields_fix_other oid v oid' v' pk pk' pst pst' amt amt'
      hne ps qs hfix h
  | none =>
    dsimp only
    exact setPayoutFields_fix_append oid v pk pst amt ps hfix _

/-! ### Fixed-point lemmas for payout items -/

/-- Payout-item presence is preserved by any upsert (upserts only append). -/
theorem hasPayoutItem_upsert_mono (its : List PayoutItem) (oid v i oid' v' : Nat)
    (oi : OrderItem) (h : hasPayoutItem its oid v i = true) :
    hasPayoutItem (upsertPayoutItem oid' v' oi its) oid v i = true := by
  unfold upsertPayoutItem
  split
  · exact h
  · unfold hasPayoutItem at h ⊢
    simp only [List.any_append, Bool.or_eq_true]
    exact Or.inl h

/-- Upserting an already-present payout item changes nothing. -/
theorem upsertPayoutItem_of_has (its : List PayoutItem) (oid v : Nat) (oi : OrderItem)
    (h : hasPayoutItem its oid v oi.id = true) :
    upsertPayoutItem oid v oi its = its := by
  unfold upsertPayoutItem
  rw [if_pos h]

/-- After an upsert, the payout item is present. -/
theorem upsertPayoutItem_adds (its : List PayoutItem) (oid v : Nat) (oi : OrderItem) :
    hasPayoutItem (upsertPayoutItem oid v oi its) oid v oi.id = true := by
  unfold upsertPayoutItem
  split
  · assumption
  · unfold hasPayoutItem
    simp

/-- Presence is preserved by the per-group item fold. -/
theorem hasPayoutItem_fold_mono (oid' v' : Nat) (l : List OrderItem)
    (oid v i : Nat) :
    ∀ its : List PayoutItem, hasPayoutItem its oid v i = true →
      hasPayoutItem (l.foldl (fun acc oi => upsertPayoutItem oid' v' oi acc) its)
        oid v i = true := by
  induction l with
  | nil => intro its h; exact h
  | cons a l ih =>
    intro its h
    exact ih _ (hasPayoutItem_upsert_mono its oid v i oid' v' a h)

/-- After the per-group item fold, every item of the group is present. -/
theorem hasPayoutItem_fold_adds (oid v : Nat) (l : List OrderItem) :
    ∀ its : List PayoutItem, ∀ oi ∈ l,
      hasPayoutItem (l.foldl (fun acc oi => upsertPayoutItem oid v oi acc) its)
        oid v oi.id = true := by
  induction l with
  | nil => intro its oi h; simp at h
  | cons a l ih =>
    intro its oi h
    rcases List.mem_cons.mp h with rfl | h'
    · exact hasPayoutItem_fold_mono oid v l oid v oi.id _
        (upsertPayoutItem_adds its oid v oi)
    · exact ih _ oi h'

/-- The per-group item fold is the identity when every item is present. -/
theorem fold_upsertPayoutItem_of_has (oid v : Nat) (l : List OrderItem) :
    ∀ its : List PayoutItem, (∀ oi ∈ l, hasPayoutItem its oid v oi.id = true) →
      l.foldl (fun acc oi => upsertPayoutItem oid v oi acc) its = its := by
  induction l with
  | nil => intro its h; rfl
  | cons a l ih =>
    intro its h
    rw [List.foldl_cons, upsertPayoutItem_of_has its oid v a (h a (by simp))]
    exact ih its (fun oi hoi => h oi (by simp [hoi]))

end BSCore

namespace BSCore

/-- A vendor group has been fully settled in a fan-out state: its payout row
holds the group fields and all its items are present (vacuous for vendors
that do not exist). -/
def groupDone (vendors : List Nat) (oid pk : Nat) (pst : PaymentStatus)
    (g : VendorGroup) (st : FanoutState) : Prop :=
  vendors.contains g.vendor_id = true →
    (setPayoutFields oid g.vendor_id (some pk) pst g.total st.payouts =
       some st.payouts ∧
     ∀ oi ∈ g.items, hasPayoutItem st.payoutItems oid g.vendor_id oi.id = true)

/-- Processing a settled group changes nothing. -/
theorem processVendorGroup_of_done (vendors : List Nat) (oid pk : Nat)
    (pst : PaymentStatus) (g : VendorGroup) (st : FanoutState)
    (h : groupDone vendors oid pk pst g st) :
    processVendorGroup vendors oid pk pst st g = st := by
  unfold processVendorGroup
  split
  · rename_i hc
    obtain ⟨h1, h2⟩ := h hc
    unfold upsertPayout
    rw [h1]
    dsimp only
    rw [fold_upsertPayoutItem_of_has oid g.vendor_id g.items st.payoutItems h2]
  · rfl

/-- Processing a group settles it. -/
theorem processVendorGroup_establishes (vendors : List Nat) (oid pk : Nat)
    (pst : PaymentStatus) (g : VendorGroup) (st : FanoutState) :
    groupDone vendors oid pk pst g (processVendorGroup vendors oid pk pst st g) := by
  unfold processVendorGroup
  split
  · intro hc
    exact ⟨upsertPayout_fix oid g.vendor_id (some pk) pst g.total st.payouts,
           fun oi hoi =>
             hasPayoutItem_fold_adds oid g.vendor_id g.items st.payoutItems oi hoi⟩
  · rename_i hc
    intro hcc
    exact absurd hcc hc

/-- Processing another vendor's group keeps a settled group settled. -/
theorem processVendorGroup_preserves (vendors : List Nat) (oid pk : Nat)
    (pst : PaymentStatus) (g g' : VendorGroup) (st : FanoutState)
    (hvne : g'.vendor_id ≠ g.vendor_id)
    (h : groupDone vendors oid pk pst g st) :
    groupDone vendors oid pk pst g (processVendorGroup vendors oid pk pst st g') := by
  unfold processVendorGroup
  split
  · intro hc
    obtain ⟨h1, h2⟩ := h hc
    constructor
    · exact upsertPayout_fix_other oid g.vendor_id oid g'.vendor_id (some pk) (some pk)
        pst pst g.total g'.total (fun hand => hvne hand.2) st.payouts h1
    · intro oi hoi
      exact hasPayoutItem_fold_mono oid g'.vendor_id g'.items oid g.vendor_id oi.id
        st.payoutItems (h2 oi hoi)
  · exact h

/-- The group fold keeps a settled group settled when no later group shares
its vendor. -/
theorem foldl_process_preserves (vendors : List Nat) (oid pk : Nat)
    (pst : PaymentStatus) (gs : List VendorGroup) (g : VendorGroup)
    (hne : ∀ g' ∈ gs, g'.vendor_id ≠ g.vendor_id) :
    ∀ st, groupDone vendors oid pk pst g st →
      groupDone vendors oid pk pst g
        (gs.foldl (processVendorGroup vendors oid pk pst) st) := by
  induction gs with
  | nil => intro st h; exact h
  | cons a gs ih =>
    intro st h
    rw [List.foldl_cons]
    exact ih (fun g' hg' => hne g' (by simp [hg'])) _
      (processVendorGroup_preserves vendors oid pk pst g a st (hne a (by simp)) h)

/-- After the group fold, every group is settled (vendor keys are distinct). -/
theorem foldl_process_establishes (vendors : List Nat) (oid pk : Nat)
    (pst : PaymentStatus) (gs : List VendorGroup)
    (hnd : (gs.map (fun g => g.vendor_id)).Nodup) :
    ∀ st, ∀ g ∈ gs,
      groupDone vendors oid pk pst g
        (gs.foldl (processVendorGroup vendors oid pk pst) st) := by
  induction gs with
  | nil => intro st g hg; simp at hg
  | cons a gs ih =>
    intro st g hg
    rw [List.foldl_cons]
    have hnd' : (∀ x ∈ gs, ¬x.vendor_id = a.vendor_id) ∧
        (List.map (fun g => g.vendor_id) gs).Nodup := by simpa using hnd
    rcases List.mem_cons.mp hg with rfl | hg'
    · exact foldl_process_preserves vendors oid pk pst gs g hnd'.1 _
        (processVendorGroup_establishes vendors oid pk pst g st)
    · exact ih hnd'.2 _ g hg'

/-- The group fold is the identity once every group is settled. -/
theorem foldl_process_of_done (vendors : List Nat) (oid pk : Nat)
    (pst : PaymentStatus) (gs : List VendorGroup) :
    ∀ st, (∀ g ∈ gs, groupDone vendors oid pk pst g st) →
      gs.foldl (processVendorGroup vendors oid pk pst) st = st := by
  induction gs with
  | nil => intro st h; rfl
  | cons a gs ih =>
    intro st h
    rw [List.foldl_cons, processVendorGroup_of_done vendors oid pk pst a st (h a (by simp))]
    exact ih st (fun g hg => h g (by simp [hg]))

end BSCore

namespace BSCore

/-- Vendor keys of `addItemToGroups`: unchanged when the vendor is already
grouped, appended otherwise. -/
theorem addItemToGroups_keys (v : Nat) (it : OrderItem) :
    ∀ gs : List VendorGroup,
      (addItemToGroups v it gs).map (fun g => g.vendor_id) =
        if v ∈ gs.map (fun g => g.vendor_id) then gs.map (fun g => g.vendor_id)
        else gs.map (fun g => g.vendor_id) ++ [v] := by
  intro gs
  induction gs with
  | nil => simp [addItemToGroups]
  | cons g gs ih =>
    by_cases hv : g.vendor_id = v
    · simp [addItemToGroups, hv]
    · have hv' : ¬(v = g.vendor_id) := fun h => hv h.symm
      by_cases hm : v ∈ gs.map (fun g => g.vendor_id)
      · simp [addItemToGroups, hv, hv', hm, ih]
      · simp [addItemToGroups, hv, hv', hm, ih]

/-- `addItemToGroups` preserves distinctness of vendor keys. -/
theorem addItemToGroups_nodup (v : Nat) (it : OrderItem) (gs : List VendorGroup)
    (h : (gs.map (fun g => g.vendor_id)).Nodup) :
    ((addItemToGroups v it gs).map (fun g => g.vendor_id)).Nodup := by
  rw [addItemToGroups_keys]
  split
  · exact h
  · rename_i hm
    exact ((List.perm_append_singleton v _).nodup_iff).mpr (List.nodup_cons.mpr ⟨hm, h⟩)

/-- The vendor groups of an order have pairwise distinct vendors. -/
theorem vendorGroups_keys_nodup (items : List OrderItem) :
    ((vendorGroups items).map (fun g => g.vendor_id)).Nodup := by
  unfold vendorGroups
  suffices h : ∀ acc : List VendorGroup, (acc.map (fun g => g.vendor_id)).Nodup →
      ((items.foldl groupStep acc).map (fun g => g.vendor_id)).Nodup by
    exact h [] (by simp)
  induction items with
  | nil => intro acc h; exact h
  | cons it its ih =>
    intro acc h
    rw [List.foldl_cons]
    apply ih
    unfold groupStep
    cases it.product_vendor with
    | none => exact h
    | some v => exact addItemToGroups_nodup v it acc h

/-- The accepted path of `create_payouts_for_order_payment`, as an equation. -/
theorem create_payouts_eq_of (db : DB) (p : Payment) (oid : Nat) (order : Order)
    (hO : p.order_id = some oid)
    (hguard : ¬(p.status_code ≠ some PaymentStatusCode.SUCCESS ∧
      p.status ≠ PaymentStatus.SUCCESS))
    (hOr : findOrder db oid = some order) :
    create_payouts_for_order_payment db p =
      { db with
        payouts := ((vendorGroups order.items).foldl
          (processVendorGroup db.vendors oid p.id p.status)
          ⟨db.payouts, db.payoutItems⟩).payouts,
        payoutItems := ((vendorGroups order.items).foldl
          (processVendorGroup db.vendors oid p.id p.status)
          ⟨db.payouts, db.payoutItems⟩).payoutItems } := by
  unfold create_payouts_for_order_payment
  simp only [hO]
  rw [if_neg hguard]
  simp only [hOr]

/-- Fan-out is idempotent: running it again — from any database whose
vendors and orders agree and whose payout tables are the result of the first
run, with any payment row sharing the first one's pk, order and status —
changes nothing. -/
theorem create_payouts_idem (db db' : DB) (p p' : Payment)
    (hv : db'.vendors = db.vendors) (ho : db'.orders = db.orders)
    (hpo : db'.payouts = (create_payouts_for_order_payment db p).payouts)
    (hpi : db'.payoutItems = (create_payouts_for_order_payment db p).payoutItems)
    (hid : p'.id = p.id) (hord : p'.order_id = p.order_id)
    (hst : p'.status = p.status) (hsc : p'.status_code = p.status_code) :
    create_payouts_for_order_payment db' p' = db' := by
  cases hO : p.order_id with
  | none =>
    unfold create_payouts_for_order_payment
    simp only [hord, hO]
  | some oid =>
    by_cases hguard : p.status_code ≠ some PaymentStatusCode.SUCCESS ∧
        p.status ≠ PaymentStatus.SUCCESS
    · unfold create_payouts_for_order_payment
      simp only [hord, hO, hst, hsc]
      rw [if_pos hguard]
    · cases hOr : findOrder db oid with
      | none =>
        unfold create_payouts_for_order_payment
        simp only [hord, hO, hst, hsc]
        rw [if_neg hguard]
        have : findOrder db' oid = none := by
          unfold findOrder at hOr ⊢
          rw [ho]
          exact hOr
        simp only [this]
      | some order =>
        have h1 := create_payouts_eq_of db p oid order hO hguard hOr
        have hOr' : findOrder db' oid = some order := by
          unfold findOrder at hOr ⊢
          rw [ho]
          exact hOr
        have h2 := create_payouts_eq_of db' p' oid order
          (by rw [hord, hO]) (by rw [hst, hsc]; exact hguard) hOr'
        rw [h2]
        have hst1 : (⟨db'.payouts, db'.payoutItems⟩ : FanoutState) =
            (vendorGroups order.items).foldl
              (processVendorGroup db.vendors oid p.id p.status)
              ⟨db.payouts, db.payoutItems⟩ := by
          rw [hpo, hpi, h1]
        have hdone := foldl_process_establishes db.vendors oid p.id p.status
          (vendorGroups order.items) (vendorGroups_keys_nodup order.items)
          ⟨db.payouts, db.payoutItems⟩
        have hfix : (vendorGroups order.items).foldl
            (processVendorGroup db'.vendors oid p'.id p'.status)
            ⟨db'.payouts, db'.payoutItems⟩ =
            (⟨db'.payouts, db'.payoutItems⟩ : FanoutState) := by
          rw [hv, hid, hst]
          refine foldl_process_of_done db.vendors oid p.id p.status
            (vendorGroups order.items) _ ?_
          intro g hg
          rw [hst1]
          exact hdone g hg
        rw [hfix]

end BSCore

namespace BSCore

/-- If the wallet step did not set the guard, it did nothing at all: every
mutating branch sets `vendor_credited_debited`. -/
theorem walletEffectStep_of_result_flag_false (db : DB) (p : Payment)
    (h : (walletEffectStep db p).2.vendor_credited_debited = false) :
    walletEffectStep db p = (db, p) ∧ p.vendor_credited_debited = false := by
  revert h
  unfold walletEffectStep
  repeat' split
  all_goals intro h
  all_goals simp_all

/-- If the subscription step did not set the guard, it did nothing at all. -/
theorem subscriptionEffectStep_of_result_flag_false (db : DB) (p : Payment) (t : Nat)
    (h : (subscriptionEffectStep db p t).2.subscription_effects_applied = false) :
    subscriptionEffectStep db p t = (db, p) ∧
      p.subscription_effects_applied = false := by
  revert h
  unfold subscriptionEffectStep
  repeat' split
  all_goals intro h
  all_goals simp_all

/-- A wallet step that was a no-op stays a no-op on any database with the
same wallets and vendors, for any payment row with the same relevant
fields. -/
theorem walletEffectStep_idem (dbA dbB : DB) (p q : Payment)
    (hwal : dbB.wallets = dbA.wallets) (hvend : dbB.vendors = dbA.vendors)
    (hq_ord : q.order_id = p.order_id) (hq_v : q.vendor_id = p.vendor_id)
    (hq_t : q.payment_type = p.payment_type) (hq_a : q.amount = p.amount)
    (hq_f : q.vendor_credited_debited = p.vendor_credited_debited)
    (hid : walletEffectStep dbA p = (dbA, p)) :
    walletEffectStep dbB q = (dbB, q) := by
  by_cases hcond : q.order_id = none ∧ q.vendor_id.isSome = true ∧
      q.vendor_credited_debited = false
  · have hcondp : p.order_id = none ∧ p.vendor_id.isSome = true ∧
        p.vendor_credited_debited = false := by
      refine ⟨hq_ord ▸ hcond.1, hq_v ▸ hcond.2.1, hq_f ▸ hcond.2.2⟩
    cases hv : q.vendor_id with
    | none => simp [hv] at hcond
    | some v =>
      have hvp : p.vendor_id = some v := hq_v ▸ hv
      have hlook : (if dbB.vendors.contains v then get_wallet dbB v else none) =
          (if dbA.vendors.contains v then get_wallet dbA v else none) := by
        rw [hvend]
        unfold get_wallet
        rw [hwal]
      unfold walletEffectStep at hid ⊢
      rw [if_pos hcond, if_pos hcondp] at *
      simp only [hv, hvp] at *
      rw [hlook]
      cases hw : (if dbA.vendors.contains v then get_wallet dbA v else none) with
      | none => rfl
      | some w =>
        rw [hw] at hid
        dsimp only at hid ⊢
        by_cases hD : p.payment_type = PaymentType.DEBIT
        · rw [if_pos hD] at hid
          have hpt : p.vendor_credited_debited = true := by
            have := congrArg (fun r => r.2.vendor_credited_debited) hid
            simpa using this
          rw [hpt] at hcondp
          simp at hcondp
        · rw [if_neg hD] at hid
          rw [if_neg (hq_t ▸ hD : ¬q.payment_type = PaymentType.DEBIT)]
          by_cases hC : p.payment_type = PaymentType.CREDIT
          · rw [if_pos hC] at hid
            rw [if_pos (hq_t ▸ hC : q.payment_type = PaymentType.CREDIT)]
            by_cases hdeb : (w.debit_wallet p.amount).2 = true
            · rw [if_pos hdeb] at hid
              have hpt : p.vendor_credited_debited = true := by
                have := congrArg (fun r => r.2.vendor_credited_debited) hid
                simpa using this
              rw [hpt] at hcondp
              simp at hcondp
            · rw [if_neg hdeb] at hid
              rw [if_neg (by rw [hq_a]; exact hdeb)]
          · rw [if_neg hC] at hid
            rw [if_neg (hq_t ▸ hC : ¬q.payment_type = PaymentType.CREDIT)]
  · unfold walletEffectStep
    rw [if_neg hcond]

/-- A subscription step that was a no-op stays a no-op on any database with
the same subscriptions, for any payment row with the same relevant fields. -/
theorem subscriptionEffectStep_idem (dbA dbB : DB) (p q : Payment) (t : Nat)
    (hsubs : dbB.subscriptions = dbA.subscriptions)
    (hq_sid : q.subscription_id = p.subscription_id)
    (hq_f : q.subscription_effects_applied = p.subscription_effects_applied)
    (hid : subscriptionEffectStep dbA p t = (dbA, p)) :
    subscriptionEffectStep dbB q t = (dbB, q) := by
  cases hsid : q.subscription_id with
  | none => exact subscriptionEffectStep_of_none dbB q t hsid
  | some sid =>
    have hsidp : p.subscription_id = some sid := hq_sid ▸ hsid
    by_cases hf : q.subscription_effects_applied = true
    · exact subscriptionEffectStep_of_flag_true dbB q t hf
    · have hfq : q.subscription_effects_applied = false := by
        cases h : q.subscription_effects_applied
        · rfl
        · exact absurd h hf
      have hfp : p.subscription_effects_applied = false := hq_f ▸ hfq
      have hlook : findSubscription dbB sid = findSubscription dbA sid := by
        unfold findSubscription
        rw [hsubs]
      cases hfound : findSubscription dbA sid with
      | none =>
        unfold subscriptionEffectStep
        simp only [hsid]
        rw [if_pos hfq, hlook, hfound]
      | some s =>
        exfalso
        unfold subscriptionEffectStep at hid
        simp only [hsidp] at hid
        rw [if_pos hfp, hfound] at hid
        have hpt : p.subscription_effects_applied = true := by
          have := congrArg (fun r => r.2.subscription_effects_applied) hid
          simpa using this
        rw [hpt] at hfp
        simp at hfp

/-- Saving the same payment row twice equals saving it once. -/
theorem savePayment_idem (db : DB) (p : Payment) :
    savePayment (savePayment db p) p = savePayment db p := by
  unfold savePayment
  simp only [List.map_map]
  congr 1
  apply List.map_congr_left
  intro x hx
  by_cases h : x.id = p.id <;> simp [h]

@[simp] theorem locked_fst_wallets (db : DB) (p : Payment) (t : Nat) :
    (_apply_payment_success_effects_locked db p t).1.wallets =
      (walletEffectStep (if p.order_id.isSome = true then
        create_payouts_for_order_payment db p else db) p).1.wallets := by
  unfold _apply_payment_success_effects_locked
  simp

@[simp] theorem locked_fst_subscriptions (db : DB) (p : Payment) (t : Nat) :
    (_apply_payment_success_effects_locked db p t).1.subscriptions =
      (subscriptionEffectStep
        (walletEffectStep (if p.order_id.isSome = true then
          create_payouts_for_order_payment db p else db) p).1
        (walletEffectStep (if p.order_id.isSome = true then
          create_payouts_for_order_payment db p else db) p).2 t).1.subscriptions := by
  unfold _apply_payment_success_effects_locked
  simp

@[simp] theorem locked_fst_payouts (db : DB) (p : Payment) (t : Nat) :
    (_apply_payment_success_effects_locked db p t).1.payouts =
      (if p.order_id.isSome = true then
        create_payouts_for_order_payment db p else db).payouts := by
  unfold _apply_payment_success_effects_locked
  simp

@[simp] theorem locked_fst_payoutItems (db : DB) (p : Payment) (t : Nat) :
    (_apply_payment_success_effects_locked db p t).1.payoutItems =
      (if p.order_id.isSome = true then
        create_payouts_for_order_payment db p else db).payoutItems := by
  unfold _apply_payment_success_effects_locked
  simp

end BSCore

namespace BSCore

/-- Definitional unfolding of the locked effect applier. -/
theorem locked_unfold (db : DB) (p : Payment) (t : Nat) :
    _apply_payment_success_effects_locked db p t =
      (savePayment
        (subscriptionEffectStep
          (walletEffectStep (if p.order_id.isSome = true then
            create_payouts_for_order_payment db p else db) p).1
          (walletEffectStep (if p.order_id.isSome = true then
            create_payouts_for_order_payment db p else db) p).2 t).1
        (subscriptionEffectStep
          (walletEffectStep (if p.order_id.isSome = true then
            create_payouts_for_order_payment db p else db) p).1
          (walletEffectStep (if p.order_id.isSome = true then
            create_payouts_for_order_payment db p else db) p).2 t).2,
       (subscriptionEffectStep
          (walletEffectStep (if p.order_id.isSome = true then
            create_payouts_for_order_payment db p else db) p).1
          (walletEffectStep (if p.order_id.isSome = true then
            create_payouts_for_order_payment db p else db) p).2 t).2) := rfl

/-- Re-saving the payment the locked applier already saved changes nothing. -/
theorem savePayment_locked (db : DB) (p : Payment) (t : Nat) :
    savePayment (_apply_payment_success_effects_locked db p t).1
      (_apply_payment_success_effects_locked db p t).2 =
      (_apply_payment_success_effects_locked db p t).1 := by
  unfold _apply_payment_success_effects_locked
  dsimp only
  exact savePayment_idem _ _

/-- The locked effect applier is idempotent: running it again on its own
result database and payment changes nothing at all. -/
theorem locked_idem (db : DB) (p : Payment) (t : Nat) :
    _apply_payment_success_effects_locked
      (_apply_payment_success_effects_locked db p t).1
      (_apply_payment_success_effects_locked db p t).2 t =
      _apply_payment_success_effects_locked db p t := by
  -- Step A: the second fan-out changes nothing.
  have hA : (if (_apply_payment_success_effects_locked db p t).2.order_id.isSome = true
      then create_payouts_for_order_payment
        (_apply_payment_success_effects_locked db p t).1
        (_apply_payment_success_effects_locked db p t).2
      else (_apply_payment_success_effects_locked db p t).1) =
      (_apply_payment_success_effects_locked db p t).1 := by
    by_cases hord : p.order_id.isSome = true
    · rw [if_pos (by simp [hord])]
      exact create_payouts_idem db _ p _ (by simp) (by simp)
        (by simp [hord]) (by simp [hord]) (by simp) (by simp) (by simp) (by simp)
    · rw [if_neg (by simp [hord])]
  -- Step B: the second wallet step changes nothing.
  have hB : walletEffectStep (_apply_payment_success_effects_locked db p t).1
      (_apply_payment_success_effects_locked db p t).2 =
      ((_apply_payment_success_effects_locked db p t).1,
       (_apply_payment_success_effects_locked db p t).2) := by
    cases hf1 : (_apply_payment_success_effects_locked db p t).2.vendor_credited_debited
      with
    | true => exact walletEffectStep_of_flag_true _ _ hf1
    | false =>
      have hWflag : (walletEffectStep (if p.order_id.isSome = true then
          create_payouts_for_order_payment db p else db) p).2.vendor_credited_debited
          = false := by
        have h1 : (_apply_payment_success_effects_locked db p t).2.vendor_credited_debited
            = (walletEffectStep (if p.order_id.isSome = true then
              create_payouts_for_order_payment db p else db) p).2.vendor_credited_debited := by
          unfold _apply_payment_success_effects_locked
          simp
        rw [← h1]
        exact hf1
      obtain ⟨hWid, hpflag⟩ := walletEffectStep_of_result_flag_false _ _ hWflag
      refine walletEffectStep_idem (if p.order_id.isSome = true then
          create_payouts_for_order_payment db p else db) _ p _ ?_ ?_
        (by simp) (by simp) (by simp) (by simp) (by rw [hf1, hpflag]) hWid
      · simp only [locked_fst_wallets]
        rw [hWid]
      · simp [apply_ite DB.vendors]
  -- Step C: the second subscription step changes nothing.
  have hC : subscriptionEffectStep (_apply_payment_success_effects_locked db p t).1
      (_apply_payment_success_effects_locked db p t).2 t =
      ((_apply_payment_success_effects_locked db p t).1,
       (_apply_payment_success_effects_locked db p t).2) := by
    cases hf2 : (_apply_payment_success_effects_locked db p t).2.subscription_effects_applied
      with
    | true => exact subscriptionEffectStep_of_flag_true _ _ t hf2
    | false =>
      have hSflag : (subscriptionEffectStep
          (walletEffectStep (if p.order_id.isSome = true then
            create_payouts_for_order_payment db p else db) p).1
          (walletEffectStep (if p.order_id.isSome = true then
            create_payouts_for_order_payment db p else db) p).2
          t).2.subscription_effects_applied = false := hf2
      obtain ⟨hSid, hWflag2⟩ := subscriptionEffectStep_of_result_flag_false _ _ t hSflag
      refine subscriptionEffectStep_idem
        (walletEffectStep (if p.order_id.isSome = true then
          create_payouts_for_order_payment db p else db) p).1 _
        (walletEffectStep (if p.order_id.isSome = true then
          create_payouts_for_order_payment db p else db) p).2 _ t ?_ (by simp)
        (by rw [hf2, hWflag2]) hSid
      simp only [locked_fst_subscriptions]
      rw [hSid]
  rw [locked_unfold (_apply_payment_success_effects_locked db p t).1
    (_apply_payment_success_effects_locked db p t).2 t]
  rw [hA, hB]
  dsimp only
  rw [hC]
  dsimp only
  rw [savePayment_locked db p t]

end BSCore

namespace BSCore

/-- The public effect applier is idempotent on its own result. -/
theorem apply_idem (db : DB) (p : Payment) (t : Nat) :
    apply_payment_success_effects
      (apply_payment_success_effects db p t).1
      (apply_payment_success_effects db p t).2 t =
      apply_payment_success_effects db p t := by
  by_cases hg : p.status = PaymentStatus.SUCCESS ∧
      p.status_code = some PaymentStatusCode.SUCCESS
  · cases hfind : getPaymentByPk db p.id with
    | none =>
      have h1 : apply_payment_success_effects db p t = (db, p) := by
        unfold apply_payment_success_effects
        rw [if_neg (by simp [hg.1, hg.2])]
        rw [hfind]
      rw [h1]
      exact h1
    | some locked =>
      by_cases hlg : locked.status = PaymentStatus.SUCCESS ∧
          locked.status_code = some PaymentStatusCode.SUCCESS
      · have h1 : apply_payment_success_effects db p t =
            _apply_payment_success_effects_locked db locked t := by
          unfold apply_payment_success_effects
          rw [if_neg (by simp [hg.1, hg.2])]
          rw [hfind]
          dsimp only
          rw [if_neg (by simp [hlg.1, hlg.2])]
        rw [h1]
        have hmem : locked ∈ db.payments := List.mem_of_find?_eq_some hfind
        have hfind2 : getPaymentByPk
            (_apply_payment_success_effects_locked db locked t).1
            (_apply_payment_success_effects_locked db locked t).2.id =
            some (_apply_payment_success_effects_locked db locked t).2 := by
          have hXpay : (subscriptionEffectStep
              (walletEffectStep (if locked.order_id.isSome = true then
                create_payouts_for_order_payment db locked else db) locked).1
              (walletEffectStep (if locked.order_id.isSome = true then
                create_payouts_for_order_payment db locked else db) locked).2
              t).1.payments = db.payments := by
            simp [apply_ite DB.payments]
          have hidq : locked.id =
              (_apply_payment_success_effects_locked db locked t).2.id := by simp
          have h := getPaymentByPk_savePayment
            (subscriptionEffectStep
              (walletEffectStep (if locked.order_id.isSome = true then
                create_payouts_for_order_payment db locked else db) locked).1
              (walletEffectStep (if locked.order_id.isSome = true then
                create_payouts_for_order_payment db locked else db) locked).2 t).1
            (_apply_payment_success_effects_locked db locked t).2
            ⟨locked, by rw [hXpay]; exact hmem, hidq⟩
          exact h
        have h2 := apply_eq_locked (_apply_payment_success_effects_locked db locked t).1
          (_apply_payment_success_effects_locked db locked t).2 t
          (by simp [hlg.1]) (by simp [hlg.2]) hfind2
        rw [h2]
        exact locked_idem db locked t
      · have h1 : apply_payment_success_effects db p t = (db, locked) := by
          unfold apply_payment_success_effects
          rw [if_neg (by simp [hg.1, hg.2])]
          rw [hfind]
          dsimp only
          rw [if_pos (by
            rcases not_and_or.mp hlg with h | h
            · exact Or.inl h
            · exact Or.inr h)]
        rw [h1]
        unfold apply_payment_success_effects
        rw [if_pos (by
          rcases not_and_or.mp hlg with h | h
          · exact Or.inl h
          · exact Or.inr h)]
  · have h1 : apply_payment_success_effects db p t = (db, p) := by
      unfold apply_payment_success_effects
      rw [if_pos (by
        rcases not_and_or.mp hg with h | h
        · exact Or.inl h
        · exact Or.inr h)]
    rw [h1]
    exact h1

/-- **C1**: applying the effect applier twice to the same SUCCESS payment is
the same as applying it once — identical wallet balances, identical Payout
and PayoutItem rows; in fact the re-invocation changes nothing at all (the
whole database and returned payment are unchanged), which subsumes the
guards-already-true no-op: once the first invocation has run (setting the
guard flags it sets), the second performs no wallet, payout or subscription
mutation and returns the payment unchanged. -/
theorem C1_effect_applier_idempotent (db : DB) (p : Payment) (t : Nat) :
    ((apply_payment_success_effects (apply_payment_success_effects db p t).1
        (apply_payment_success_effects db p t).2 t).1.wallets =
      (apply_payment_success_effects db p t).1.wallets) ∧
    ((apply_payment_success_effects (apply_payment_success_effects db p t).1
        (apply_payment_success_effects db p t).2 t).1.payouts =
      (apply_payment_success_effects db p t).1.payouts) ∧
    ((apply_payment_success_effects (apply_payment_success_effects db p t).1
        (apply_payment_success_effects db p t).2 t).1.payoutItems =
      (apply_payment_success_effects db p t).1.payoutItems) ∧
    (apply_payment_success_effects (apply_payment_success_effects db p t).1
        (apply_payment_success_effects db p t).2 t =
      apply_payment_success_effects db p t) := by
  have h := apply_idem db p t
  exact ⟨by rw [h], by rw [h], by rw [h], h⟩

end BSCore

namespace BSCore

/-- Sum of all line totals a vendor owns inside an item list. -/
def vendorLineSum (items : List OrderItem) (v : Nat) : Int :=
  ((items.filter (fun it => it.product_vendor = some v)).map (fun it => it.price)).sum

/-- Total over a list of vendor groups. -/
def sumTotals (gs : List VendorGroup) : Int :=
  (gs.map (fun g => g.total)).sum

/-- Adding an item adds exactly its price to the grouped total. -/
theorem sumTotals_addItemToGroups (v : Nat) (it : OrderItem) :
    ∀ gs : List VendorGroup, sumTotals (addItemToGroups v it gs) = sumTotals gs + it.price := by
  intro gs
  induction gs with
  | nil => simp [addItemToGroups, sumTotals]
  | cons g gs ih =>
    by_cases hv : g.vendor_id = v
    · simp [addItemToGroups, hv, sumTotals]
      ring
    · simp [addItemToGroups, hv, sumTotals] at ih ⊢
      rw [ih]
      ring

/-- Grouping conserves the total of the grouped (vendor-owning) lines. -/
theorem sumTotals_foldl (items : List OrderItem) :
    ∀ acc : List VendorGroup,
      sumTotals (items.foldl groupStep acc) =
        sumTotals acc +
          ((items.filter (fun it => it.product_vendor.isSome)).map
            (fun it => it.price)).sum := by
  induction items with
  | nil => intro acc; simp
  | cons it its ih =>
    intro acc
    rw [List.foldl_cons]
    cases hv : it.product_vendor with
    | none =>
      have hstep : groupStep acc it = acc := by
        unfold groupStep
        rw [hv]
      rw [hstep, ih acc]
      simp [hv]
    | some v =>
      have hstep : groupStep acc it = addItemToGroups v it acc := by
        unfold groupStep
        rw [hv]
      rw [hstep, ih (addItemToGroups v it acc), sumTotals_addItemToGroups v it acc]
      simp [hv]
      ring

/-- Total of the payout rows fan-out would create. -/
theorem sumTotals_vendorGroups (items : List OrderItem)
    (hvend : ∀ it ∈ items, it.product_vendor.isSome = true) :
    sumTotals (vendorGroups items) = (items.map (fun it => it.price)).sum := by
  unfold vendorGroups
  rw [sumTotals_foldl items []]
  have : items.filter (fun it => it.product_vendor.isSome) = items :=
    List.filter_eq_self.mpr hvend
  rw [this]
  simp [sumTotals]

end BSCore

namespace BSCore

/-- The grouped total recorded for a vendor key (0 when absent). -/
def keyTotal (gs : List VendorGroup) (v : Nat) : Int :=
  match gs.find? (fun g => g.vendor_id = v) with
  | some g => g.total
  | none => 0

/-- How `addItemToGroups` changes the group found for each key. -/
theorem find_addItemToGroups (v : Nat) (it : OrderItem) (u : Nat) :
    ∀ gs : List VendorGroup,
      (addItemToGroups v it gs).find? (fun g => g.vendor_id = u) =
        if u = v then
          (match gs.find? (fun g => g.vendor_id = v) with
           | some g => some { g with total := g.total + it.price, items := g.items ++ [it] }
           | none => some ⟨v, it.price, [it]⟩)
        else gs.find? (fun g => g.vendor_id = u) := by
  intro gs
  induction gs with
  | nil =>
    by_cases hu : u = v
    · simp [addItemToGroups, hu]
    · have hu' : ¬(v = u) := fun h => hu h.symm
      simp [addItemToGroups, hu, hu']
  | cons g gs ih =>
    by_cases hk : g.vendor_id = v
    · by_cases hu : u = v
      · simp [addItemToGroups, hk, hu]
      · have hgu : ¬(g.vendor_id = u) := by rw [hk]; exact fun h => hu h.symm
        have hvu : ¬(v = u) := fun h => hu h.symm
        simp [addItemToGroups, hk, hu, hgu, hvu]
    · by_cases hgu : g.vendor_id = u
      · have hu : ¬(u = v) := by
          intro h
          exact hk (hgu.trans h)
        simp [addItemToGroups, hk, hgu, hu]
      · by_cases hu : u = v
        · simp [addItemToGroups, hk, hgu, hu] at ih ⊢
          rw [ih]
        · simp [addItemToGroups, hk, hgu, hu] at ih ⊢
          rw [ih]

/-- After grouping, each vendor key's total equals its accumulated total plus
the vendor's line sum. -/
theorem keyTotal_foldl (items : List OrderItem) :
    ∀ (acc : List VendorGroup) (u : Nat),
      keyTotal (items.foldl groupStep acc) u = keyTotal acc u + vendorLineSum items u := by
  induction items with
  | nil => intro acc u; simp [vendorLineSum]
  | cons it its ih =>
    intro acc u
    rw [List.foldl_cons]
    cases hv : it.product_vendor with
    | none =>
      have hstep : groupStep acc it = acc := by
        unfold groupStep
        rw [hv]
      rw [hstep, ih acc u]
      unfold vendorLineSum
      simp [hv]
    | some v =>
      have hstep : groupStep acc it = addItemToGroups v it acc := by
        unfold groupStep
        rw [hv]
      rw [hstep, ih _ u]
      have hkey : keyTotal (addItemToGroups v it acc) u =
          keyTotal acc u + (if u = v then it.price else 0) := by
        unfold keyTotal
        rw [find_addItemToGroups v it u acc]
        by_cases hu : u = v
        · rw [if_pos hu, if_pos hu]
          cases hfind : acc.find? (fun g => g.vendor_id = v) with
          | some g =>
            rw [hu, hfind]
          | none =>
            rw [hu, hfind]
            simp
        · rw [if_neg hu, if_neg hu]
          ring_nf
      rw [hkey]
      have hline : vendorLineSum (it :: its) u =
          (if u = v then it.price else 0) + vendorLineSum its u := by
        unfold vendorLineSum
        by_cases hu : u = v
        · have : it.product_vendor = some u := by rw [hv, hu]
          simp [List.filter_cons, this, hu]
        · have : ¬(it.product_vendor = some u) := by
            rw [hv]
            intro h
            exact hu (Option.some.inj h).symm
          simp [List.filter_cons, this, hu]
      rw [hline]
      ring

/-- With distinct keys, `find?` returns the member itself. -/
theorem find?_of_mem_nodup (gs : List VendorGroup) (g : VendorGroup)
    (hnd : (gs.map (fun x => x.vendor_id)).Nodup) (hg : g ∈ gs) :
    gs.find? (fun x => x.vendor_id = g.vendor_id) = some g := by
  induction gs with
  | nil => simp at hg
  | cons a gs ih =>
    have hnd' : (∀ x ∈ gs, ¬x.vendor_id = a.vendor_id) ∧
        (List.map (fun x => x.vendor_id) gs).Nodup := by simpa using hnd
    rcases List.mem_cons.mp hg with rfl | hg'
    · simp
    · have hne : ¬(a.vendor_id = g.vendor_id) :=
        fun h => hnd'.1 g hg' h.symm
      simp [hne]
      exact ih hnd'.2 hg'

/-- Every group's total is its vendor's line sum. -/
theorem vendorGroups_total (items : List OrderItem) (g : VendorGroup)
    (hg : g ∈ vendorGroups items) :
    g.total = vendorLineSum items g.vendor_id := by
  have hfind := find?_of_mem_nodup (vendorGroups items) g
    (vendorGroups_keys_nodup items) hg
  have h := keyTotal_foldl items [] g.vendor_id
  unfold vendorGroups at hfind
  unfold keyTotal at h
  rw [hfind] at h
  simpa using h

/-- Every group's vendor comes from some order line. -/
theorem vendorGroups_key_mem (items : List OrderItem) :
    ∀ (acc : List VendorGroup) (u : Nat),
      u ∈ (items.foldl groupStep acc).map (fun g => g.vendor_id) →
      u ∈ acc.map (fun g => g.vendor_id) ∨
        ∃ it ∈ items, it.product_vendor = some u := by
  induction items with
  | nil => intro acc u h; exact Or.inl h
  | cons it its ih =>
    intro acc u h
    rw [List.foldl_cons] at h
    cases hv : it.product_vendor with
    | none =>
      have hstep : groupStep acc it = acc := by
        unfold groupStep
        rw [hv]
      rw [hstep] at h
      rcases ih acc u h with h' | ⟨it', hit', hv'⟩
      · exact Or.inl h'
      · exact Or.inr ⟨it', by simp [hit'], hv'⟩
    | some v =>
      have hstep : groupStep acc it = addItemToGroups v it acc := by
        unfold groupStep
        rw [hv]
      rw [hstep] at h
      rcases ih _ u h with h' | ⟨it', hit', hv'⟩
      · rw [addItemToGroups_keys] at h'
        by_cases hm : v ∈ acc.map (fun g => g.vendor_id)
        · rw [if_pos hm] at h'
          exact Or.inl h'
        · rw [if_neg hm] at h'
          rcases List.mem_append.mp h' with h'' | h''
          · exact Or.inl h''
          · have : u = v := by simpa using h''
            exact Or.inr ⟨it, by simp, by rw [hv, this]⟩
      · exact Or.inr ⟨it', by simp [hit'], hv'⟩

end BSCore

namespace BSCore

/-- No row carries the key: the field update finds nothing. -/
theorem setPayoutFields_none_of_absent (oid v : Nat) (pk : Option Nat)
    (pst : PaymentStatus) (amt : Int) :
    ∀ ps : List Payout, (∀ q ∈ ps, ¬(q.order_id = oid ∧ q.vendor_id = v)) →
      setPayoutFields oid v pk pst amt ps = none := by
  intro ps
  induction ps with
  | nil => intro h; rfl
  | cons p rest ih =>
    intro h
    have hp := h p (by simp)
    simp [setPayoutFields, hp]
    exact ih (fun q hq => h q (by simp [hq]))

/-- From a state holding no payout of the order, the group fold appends one
fresh payout per (existing-vendor) group, in group order. -/
theorem foldl_process_append (vendors : List Nat) (oid pk : Nat)
    (pst : PaymentStatus) :
    ∀ (gs : List VendorGroup) (st : FanoutState),
      (∀ g ∈ gs, vendors.contains g.vendor_id = true) →
      (∀ g ∈ gs, ∀ q ∈ st.payouts, ¬(q.order_id = oid ∧ q.vendor_id = g.vendor_id)) →
      ((gs.map (fun g => g.vendor_id)).Nodup) →
      (gs.foldl (processVendorGroup vendors oid pk pst) st).payouts =
        st.payouts ++ gs.map (fun g => newPayout oid g.vendor_id (some pk) pst g.total) := by
  intro gs
  induction gs with
  | nil => intro st h1 h2 h3; simp
  | cons g gs ih =>
    intro st h1 h2 h3
    rw [List.foldl_cons]
    have hnd' : (∀ x ∈ gs, ¬x.vendor_id = g.vendor_id) ∧
        (List.map (fun x => x.vendor_id) gs).Nodup := by simpa using h3
    have hproc : processVendorGroup vendors oid pk pst st g =
        ⟨st.payouts ++ [newPayout oid g.vendor_id (some pk) pst g.total],
         g.items.foldl (fun acc oi => upsertPayoutItem oid g.vendor_id oi acc)
           st.payoutItems⟩ := by
      unfold processVendorGroup
      rw [if_pos (h1 g (by simp))]
      unfold upsertPayout
      rw [setPayoutFields_none_of_absent oid g.vendor_id (some pk) pst g.total
        st.payouts (h2 g (by simp))]
    rw [hproc]
    rw [ih _ (fun g' hg' => h1 g' (by simp [hg'])) ?habs hnd'.2]
    · simp
    · intro g' hg' q hq
      rcases List.mem_append.mp hq with hq' | hq'
      · exact h2 g' (by simp [hg']) q hq'
      · have : q = newPayout oid g.vendor_id (some pk) pst g.total := by simpa using hq'
        rw [this]
        unfold newPayout
        rintro ⟨h1', h2'⟩
        exact hnd'.1 g' hg' (by simpa using h2'.symm)

end BSCore

namespace BSCore

/-- **C4 (amended)**: for a SUCCESS order payment over an order all of whose
lines belong to existing vendors, starting with no payouts for that order,
fan-out creates payouts whose amounts sum to the order's items total — the
order's `total_amount` minus its delivery fee (the delivery fee is *not*
distributed, so the sum equals the charged amount A only when the fee is
zero) — with each vendor's payout equal to the sum of that vendor's line
totals, and re-running fan-out any number of times changes nothing. -/
theorem C4_fanout_conservation (db : DB) (p : Payment) (oid : Nat) (order : Order)
    (hO : p.order_id = some oid)
    (hs : p.status = PaymentStatus.SUCCESS)
    (hOr : findOrder db oid = some order)
    (hvend : ∀ it ∈ order.items, ∃ v, it.product_vendor = some v ∧
      db.vendors.contains v = true)
    (hclean : ∀ q ∈ db.payouts, q.order_id ≠ oid) :
    ((((create_payouts_for_order_payment db p).payouts.filter
        (fun q => q.order_id = oid)).map (fun q => q.amount)).sum =
      order.total_amount - order.delivery_fee_amount) ∧
    (∀ q ∈ (create_payouts_for_order_payment db p).payouts, q.order_id = oid →
      q.amount = vendorLineSum order.items q.vendor_id) ∧
    (create_payouts_for_order_payment (create_payouts_for_order_payment db p) p =
      create_payouts_for_order_payment db p) := by
  have hguard : ¬(p.status_code ≠ some PaymentStatusCode.SUCCESS ∧
      p.status ≠ PaymentStatus.SUCCESS) := by
    rintro ⟨h1, h2⟩
    exact h2 hs
  have h1 := create_payouts_eq_of db p oid order hO hguard hOr
  have hconts : ∀ g ∈ vendorGroups order.items,
      db.vendors.contains g.vendor_id = true := by
    intro g hg
    have hk : g.vendor_id ∈ (vendorGroups order.items).map (fun g => g.vendor_id) :=
      List.mem_map_of_mem _ hg
    rcases vendorGroups_key_mem order.items [] g.vendor_id
      (by simpa [vendorGroups] using hk) with h' | ⟨it, hit, hv⟩
    · simp at h'
    · rcases hvend it hit with ⟨v, hv', hc⟩
      rw [hv'] at hv
      rw [← Option.some.inj hv]
      exact hc
  have habs : ∀ g ∈ vendorGroups order.items, ∀ q ∈ db.payouts,
      ¬(q.order_id = oid ∧ q.vendor_id = g.vendor_id) := by
    intro g hg q hq
    rintro ⟨ho', h2'⟩
    exact hclean q hq ho'
  have happend := foldl_process_append db.vendors oid p.id p.status
    (vendorGroups order.items) ⟨db.payouts, db.payoutItems⟩ hconts habs
    (vendorGroups_keys_nodup order.items)
  have hpayouts : (create_payouts_for_order_payment db p).payouts =
      db.payouts ++ (vendorGroups order.items).map
        (fun g => newPayout oid g.vendor_id (some p.id) p.status g.total) := by
    rw [h1]
    exact happend
  refine ⟨?_, ?_, ?_⟩
  · rw [hpayouts, List.filter_append]
    have hfil1 : db.payouts.filter (fun q => decide (q.order_id = oid)) = [] := by
      rw [List.filter_eq_nil_iff]
      intro q hq
      simpa using hclean q hq
    have hfil2 : ((vendorGroups order.items).map
        (fun g => newPayout oid g.vendor_id (some p.id) p.status g.total)).filter
        (fun q => decide (q.order_id = oid)) =
        (vendorGroups order.items).map
          (fun g => newPayout oid g.vendor_id (some p.id) p.status g.total) := by
      rw [List.filter_eq_self]
      intro q hq
      rcases List.mem_map.mp hq with ⟨g, hg, rfl⟩
      simp [newPayout]
    rw [hfil1, hfil2]
    simp only [List.nil_append]
    have hmapmap : (((vendorGroups order.items).map
        (fun g => newPayout oid g.vendor_id (some p.id) p.status g.total)).map
        (fun q => q.amount)) = (vendorGroups order.items).map (fun g => g.total) := by
      rw [List.map_map]
      rfl
    rw [hmapmap]
    have hvend' : ∀ it ∈ order.items, it.product_vendor.isSome = true := by
      intro it hit
      rcases hvend it hit with ⟨v, hv, hc⟩
      rw [hv]
      rfl
    have hsum := sumTotals_vendorGroups order.items hvend'
    unfold sumTotals at hsum
    rw [hsum]
    unfold Order.total_amount
    ring
  · intro q hq hqo
    rw [hpayouts] at hq
    rcases List.mem_append.mp hq with hq' | hq'
    · exact absurd hqo (hclean q hq')
    · rcases List.mem_map.mp hq' with ⟨g, hg, rfl⟩
      have := vendorGroups_total order.items g hg
      simp [newPayout, this]
  · exact create_payouts_idem db _ p p (by simp) (by simp) rfl rfl rfl rfl rfl rfl

end BSCore

namespace BSCore

/-- Two-vendor order with lines 30 and 20 plus delivery fee 5. -/
def orderC4 : Order := ⟨1, [⟨1, 1, some 1, 30, 1, 30⟩, ⟨2, 2, some 2, 20, 1, 20⟩], 5⟩

/-- SUCCESS payment charged the order's `total_amount` (55, fee included), as
`get_payment_amount` computes it at initiation. -/
def paymentC4 : Payment :=
  ⟨1, "o", some 1, none, none, none, 55, PaymentType.DEBIT, PaymentStatus.SUCCESS,
   some PaymentStatusCode.SUCCESS, false, false⟩

/-- Database for the C4 counterexample and witness. -/
def dbC4 : DB := ⟨[1, 2], [], [orderC4], [], [paymentC4], [], [], [], 0⟩

/-- Counterexample to C4 as stated: the payment amount A includes the
delivery fee (A = `Order.total_amount` = 55), but fan-out only distributes
item line totals (30 + 20 = 50), so Σ Payout.amount ≠ A. -/
theorem C4_counterexample :
    paymentC4.amount = orderC4.total_amount ∧
    (((create_payouts_for_order_payment dbC4 paymentC4).payouts.filter
        (fun q => q.order_id = 1)).map (fun q => q.amount)).sum ≠ paymentC4.amount := by
  constructor
  · decide
  · decide

/-- Witness for the amended C4 at concrete inputs. -/
theorem C4_fanout_conservation_witness :
    ((((create_payouts_for_order_payment dbC4 paymentC4).payouts.filter
        (fun q => q.order_id = 1)).map (fun q => q.amount)).sum =
      orderC4.total_amount - orderC4.delivery_fee_amount) ∧
    (create_payouts_for_order_payment (create_payouts_for_order_payment dbC4 paymentC4)
        paymentC4 = create_payouts_for_order_payment dbC4 paymentC4) := by
  have h := C4_fanout_conservation dbC4 paymentC4 1 orderC4 rfl rfl rfl
    (by
      intro it hit
      have : it = (⟨1, 1, some 1, 30, 1, 30⟩ : OrderItem) ∨
          it = (⟨2, 2, some 2, 20, 1, 20⟩ : OrderItem) := by
        simpa [orderC4] using hit
      rcases this with rfl | rfl
      · exact ⟨1, rfl, by decide⟩
      · exact ⟨2, rfl, by decide⟩)
    (by
      intro q hq
      simp [dbC4] at hq)
  exact ⟨h.1, h.2.2⟩

end BSCore
